import Mathlib

/-!
Verification of the particle plume / diffusion / powder subsystem of the
oksidit repository (src/lib/diffusion.js and src/lib/powder.js).

The JavaScript source is shallowly embedded: particle pools become lists of
records, the per-frame `update(dt)` becomes a pure state-transition function,
and every call to `Math.random()` is modelled as one field of an explicitly
passed record of "random draws" (arbitrary rational values, quantified
universally in the theorems).  Positions and velocities live in `ℝ` because
the source clamps radial positions with `Math.hypot` (a square root);
lifetimes, timers and configuration values live in `ℚ`, matching the purely
arithmetic way the source manipulates them.
-/

set_option autoImplicit false

namespace Oksidit

/-- JS `Math.hypot(x, y)` (used by diffusion.js lines 520 and 524 and by
powder.js for radial clamping). -/
noncomputable def jsHypot (x y : ℝ) : ℝ := Real.sqrt (x ^ 2 + y ^ 2)

/-! ### Plume particle pool (diffusion.js lines 157-liner arrays)

One particle gathers the slots of the parallel arrays `positions`,
`velocities`, `life`, `drifts`, `expandDirs`, `colors`, `gate`,
`fadeTimers`, `fadeDurations` at one index.  `gate = true` models the
stored float `1.0` (respect indicator gating), `false` models `0.0`. -/

structure Particle where
  px : ℝ
  py : ℝ
  pz : ℝ
  vx : ℝ
  vy : ℝ
  vz : ℝ
  life : ℚ
  driftX : ℝ
  driftZ : ℝ
  expandX : ℝ
  expandZ : ℝ
  cr : ℚ
  cg : ℚ
  cb : ℚ
  gate : Bool
  fadeTimer : ℚ
  fadeDuration : ℚ

/-- Freshly allocated slot of the `Float32Array`s: every numeric field is 0
(so `gate` reads 0.0, i.e. `false`). -/
def deadParticle : Particle :=
  { px := 0, py := 0, pz := 0, vx := 0, vy := 0, vz := 0, life := 0,
    driftX := 0, driftZ := 0, expandX := 0, expandZ := 0,
    cr := 0, cg := 0, cb := 0, gate := false, fadeTimer := 0, fadeDuration := 0 }

/-- diffusion.js line 158: `const maxParticles = 1000`. -/
def maxParticles : ℕ := 1000

/-- Number of particles with `life > 0.0`, as counted by `spawnParticle`
(line 317) and `getPlumeStats` (line 654). -/
def activeCount (pool : List Particle) : ℕ :=
  pool.countP (fun p => decide (0 < p.life))

/-- Runtime-adjustable plume configuration object (diffusion.js lines 284-299). -/
structure PlumeConfig where
  spawnRate : ℚ
  spawnRateMultiplier : ℚ
  lifeSeconds : ℚ
  maxActive : ℚ
  alphaCurveExp : ℚ
  sizeCurveExp : ℚ
  minAlpha : ℚ
  enabled : Bool
  baselineEmissionRate : ℚ
  ageSpreadStrength : ℚ
  cellSize : ℚ
  maxPerCell : ℚ
  suppressionProbability : ℚ

/-- The initial `plumeConfig` literal (diffusion.js lines 284-299);
`maxActive = Math.floor(1000 * 0.35) = 350`. -/
def defaultPlumeConfig : PlumeConfig :=
  { spawnRate := 6, spawnRateMultiplier := 1, lifeSeconds := 2.1,
    maxActive := 350, alphaCurveExp := 1.2, sizeCurveExp := 1.2,
    minAlpha := 0, enabled := true, baselineEmissionRate := 0,
    ageSpreadStrength := 0.18, cellSize := 0.18, maxPerCell := 14,
    suppressionProbability := 0.7 }

/-- Constructor parameters of `createDiffusionManager` that the plume code
closes over. -/
structure PlumeEnv where
  beakerRadius : ℚ
  waterSurfaceY : ℚ
  waterHeight : ℚ

/-- diffusion.js line 309: `waterBottomY = waterSurfaceY - (waterHeight || 0)`. -/
def waterBottomY (env : PlumeEnv) : ℚ := env.waterSurfaceY - env.waterHeight

/-- Linear RGB triple of `new THREE.Color(hex)` (componentwise `byte / 255`;
the values are only stored per particle, never branched on). -/
def hexToRgb (n : ℕ) : ℚ × ℚ × ℚ :=
  (((n / 65536) % 256 : ℕ) / 255, ((n / 256) % 256 : ℕ) / 255, ((n % 256 : ℕ)) / 255)

/-- The shader-material uniforms that the bottom-spawn path temporarily
overrides and restores (diffusion.js lines 197-207 initial values). -/
structure Uniforms where
  uRequireIndicator : ℚ
  uUseOverride : ℚ
  uOverrideColor : ℚ × ℚ × ℚ
  uOpacity : ℚ
  uSaturation : ℚ
  uBrightness : ℚ

def initUniforms : Uniforms :=
  { uRequireIndicator := 1, uUseOverride := 0, uOverrideColor := hexToRgb 0x00ff80,
    uOpacity := 0.08, uSaturation := 0.45, uBrightness := 0.85 }

/-- Style overrides stored on a bottom queue entry (diffusion.js line 379).
`addBottomSource` always supplies the four numeric fields and never a
`color` field, so `color` is an `Option`. -/
structure SpawnStyle where
  ignoreIndicator : Bool
  saturation : ℚ
  opacity : ℚ
  brightness : ℚ
  color : Option ℕ

/-- A spawn-queue entry `{ x, z, count, bottom, style?, rgb? }`
(diffusion.js line 11 and lines 356, 379). -/
structure SpawnReq where
  x : ℝ
  z : ℝ
  count : ℤ
  bottom : Bool
  style : Option SpawnStyle
  rgb : Option (ℚ × ℚ × ℚ)

/-- Whole mutable state of the plume half of the diffusion manager. -/
structure PlumeState where
  pool : List Particle
  spawnQueue : List SpawnReq
  spawnAccum : ℚ
  bottomPlumeDisabled : Bool
  bottomOffsetX : ℚ
  bottomOffsetZ : ℚ
  pointsCreated : Bool
  uniforms : Uniforms
  debugForce : Bool
  debugT : ℚ
  config : PlumeConfig

/-- Initial manager state: all arrays zeroed, empty queue, `points` not yet
created, with the given starting configuration. -/
def mkInitState (cfg : PlumeConfig) : PlumeState :=
  { pool := List.replicate maxParticles deadParticle, spawnQueue := [],
    spawnAccum := 0, bottomPlumeDisabled := false,
    bottomOffsetX := 0, bottomOffsetZ := 0, pointsCreated := false,
    uniforms := initUniforms, debugForce := false, debugT := 0, config := cfg }

/-! ### spawnParticle (diffusion.js lines 312-352) -/

/-- The `Math.random()` draws consumed by one `spawnParticle` call. -/
structure SpawnRands where
  q1 : ℚ
  q2 : ℚ
  q3 : ℚ
  q4 : ℚ
  q5 : ℚ
  q6 : ℚ
  q7 : ℚ
  q8 : ℚ
  q9 : ℚ

/-- Index of the first slot with `life <= 0.0`; models the combined
index-scan of diffusion.js lines 316-320 (the initial scan and the
fallback scan find the same first free slot). -/
def firstDeadIdx : List Particle → Option ℕ
  | [] => none
  | p :: ps => if p.life ≤ 0 then some 0 else (firstDeadIdx ps).map (· + 1)

/-- The particle record written by `spawnParticle` once a slot was found
(diffusion.js lines 322-351). -/
noncomputable def mkSpawnedParticle (env : PlumeEnv) (bottomInjecting : Bool)
    (x z : ℝ) (rgb : ℚ × ℚ × ℚ) (gated : Bool) (sr : SpawnRands) : Particle :=
  let spread : ℝ := if bottomInjecting then 0.16 else 0.09
  let theta : ℝ := (sr.q4 : ℝ) * (2 * Real.pi)
  let speed : ℝ := 0.2 + (sr.q5 : ℝ) * 0.5
  let driftTheta : ℝ := (sr.q6 : ℝ) * (2 * Real.pi)
  let driftSpeed : ℝ := 0.02 + (sr.q7 : ℝ) * 0.03
  let expTheta : ℝ := (sr.q8 : ℝ) * (2 * Real.pi)
  { px := x + ((sr.q1 : ℝ) - 0.5) * spread,
    py := if bottomInjecting then ((waterBottomY env : ℝ) + 0.04) + (sr.q2 : ℝ) * 0.05
          else (env.waterSurfaceY : ℝ) - 0.18 - (sr.q2 : ℝ) * 0.12,
    pz := z + ((sr.q3 : ℝ) - 0.5) * spread,
    vx := Real.cos theta * speed,
    vy := -0.01 + (sr.q9 : ℝ) * 0.05,
    vz := Real.sin theta * speed,
    life := 1,
    driftX := Real.cos driftTheta * driftSpeed,
    driftZ := Real.sin driftTheta * driftSpeed,
    expandX := Real.cos expTheta,
    expandZ := Real.sin expTheta,
    cr := rgb.1, cg := rgb.2.1, cb := rgb.2.2,
    gate := gated, fadeTimer := 0, fadeDuration := 0 }

/-- diffusion.js `spawnParticle` (lines 312-352): no-op when disabled, when
the active count is at the cap, or when no free slot exists; otherwise
writes a fresh particle into the first free slot. -/
noncomputable def spawnParticle (env : PlumeEnv) (cfg : PlumeConfig)
    (bottomInjecting : Bool) (x z : ℝ) (rgb : ℚ × ℚ × ℚ) (gated : Bool)
    (sr : SpawnRands) (pool : List Particle) : List Particle :=
  if cfg.enabled = false then pool
  else if cfg.maxActive ≤ (activeCount pool : ℚ) then pool
  else
    match firstDeadIdx pool with
    | none => pool
    | some i => pool.set i (mkSpawnedParticle env bottomInjecting x z rgb gated sr)

/-! ### Spatial density grid (diffusion.js lines 397-421) -/

/-- diffusion.js line 400: `gridDim = Math.max(1, Math.ceil((beakerRadius*2)/gridCell))`. -/
def gridDim (env : PlumeEnv) (cfg : PlumeConfig) : ℕ :=
  (max 1 ⌈(env.beakerRadius * 2) / cfg.cellSize⌉).toNat

/-- diffusion.js lines 410-414: clamped cell index `gz * gDim + gx`. -/
noncomputable def gridIndex (env : PlumeEnv) (cfg : PlumeConfig) (x z : ℝ) : ℕ :=
  let gDim : ℤ := gridDim env cfg
  let gx : ℤ := min (gDim - 1) (max 0 ⌊(x + (env.beakerRadius : ℝ)) / (cfg.cellSize : ℝ)⌋)
  let gz : ℤ := min (gDim - 1) (max 0 ⌊(z + (env.beakerRadius : ℝ)) / (cfg.cellSize : ℝ)⌋)
  (gz * gDim + gx).toNat

/-- Population of the per-frame `Uint16Array` grid from the alive particles
(diffusion.js lines 416-421).  Saturating increments of a `Uint16Array`
counter amount to capping the per-cell count at 65535. -/
noncomputable def buildGrid (env : PlumeEnv) (cfg : PlumeConfig)
    (pool : List Particle) : ℕ → ℕ :=
  fun gi => min 65535
    (pool.countP (fun p => decide (0 < p.life) && decide (gridIndex env cfg p.px p.pz = gi)))

/-- The pre-emptive in-loop increment `gCounts[gi2]++` (diffusion.js line 476),
with the same `Uint16Array` saturation as the population pass. -/
def bumpGrid (g : ℕ → ℕ) (gi : ℕ) : ℕ → ℕ :=
  fun j => if j = gi then (if g gi < 65535 then g gi + 1 else g gi) else g j

/-! ### update(dt): spawn budget and queue drain (diffusion.js lines 392-495) -/

/-- Spawn-budget computation of diffusion.js lines 424-431: the stochastic
multiplier `0.9 + Math.random()*0.2`, the fractional accumulator, its floor,
and the forced budget of 1 for a non-empty queue.  Returns
`(budget, new accumulator)`. -/
def spawnBudget (rate mult rngv dt accum : ℚ) (queueNonempty : Bool) : ℤ × ℚ :=
  let a1 := accum + rate * mult * (0.9 + rngv * 0.2) * dt
  let b0 : ℤ := ⌊a1⌋
  let a2 := if 0 < b0 then a1 - b0 else a1
  if b0 = 0 ∧ queueNonempty = true then (1, 0) else (b0, a2)

/-- Random draws consumed by one iteration of the queue-drain loop:
the global-thinning coin (line 462), the local-suppression coin (line 468)
and the draws of the possible `spawnParticle` call. -/
structure DrainRands where
  g : ℚ
  l : ℚ
  sp : SpawnRands

/-- One-spawn drain of the queue (diffusion.js lines 432-495), recursing on
the remaining budget.  The temporary uniform overrides installed for a
bottom entry (lines 435-453) are restored verbatim from the saved
`prevState` right after the spawn (lines 479-491), so they have no net
effect on the threaded state; `_bottomInjecting` is passed to
`spawnParticle` as the `bottomInjecting` flag. -/
noncomputable def drainQueue (env : PlumeEnv) (cfg : PlumeConfig)
    (dr : ℕ → DrainRands) :
    ℕ → ℕ → (ℕ → ℕ) → List SpawnReq → List Particle →
    List SpawnReq × List Particle
  | 0, _, _, q, pool => (q, pool)
  | _ + 1, _, _, [], pool => ([], pool)
  | fuel + 1, k, grid, req :: rest, pool =>
    let rgb := req.rgb.getD (1, 1, 1)
    let gated := !req.bottom
    let allow1 : Bool :=
      !(decide (cfg.maxActive * 0.85 < (activeCount pool : ℚ)) && decide ((dr k).g < 0.5))
    let gi := gridIndex env cfg req.x req.z
    let allow : Bool :=
      allow1 && !(decide (cfg.maxPerCell ≤ (grid gi : ℚ)) && decide ((dr k).l < cfg.suppressionProbability))
    let pool1 := if allow = true
      then spawnParticle env cfg req.bottom req.x req.z rgb gated (dr k).sp pool
      else pool
    let grid1 := if allow = true then bumpGrid grid gi else grid
    let count1 := req.count - 1
    let q1 := if count1 ≤ 0 then rest else { req with count := count1 } :: rest
    drainQueue env cfg dr fuel (k + 1) grid1 q1 pool1

/-! ### update(dt): particle integration (diffusion.js lines 496-537) -/

/-- The `Math.random()` draws consumed by the integration of one particle
(velocity jitter line 515-516, drift jitter line 518-519). -/
structure IntegRands where
  j1 : ℚ
  j2 : ℚ
  j3 : ℚ
  j4 : ℚ

/-- Radial clamp of diffusion.js lines 524-525: if the XZ distance from the
center exceeds `c`, rescale the XZ position in place by `c / r`. -/
noncomputable def clampRadius (c : ℝ) (x z : ℝ) : ℝ × ℝ :=
  if c < jsHypot x z then (x * (c / jsHypot x z), z * (c / jsHypot x z)) else (x, z)

/-- Position/velocity/drift part of the per-particle integration
(diffusion.js lines 500-525): drift motion, age-based radial expansion,
buoyancy, jitter, drift shrink, exponential damping, Y clamp below the
water surface, and the radial XZ clamp.  Does not touch `life`, `gate` or
the fade fields. -/
noncomputable def integMove (env : PlumeEnv) (cfg : PlumeConfig) (dt : ℚ)
    (ir : IntegRands) (p : Particle) : Particle :=
  let dtR : ℝ := (dt : ℝ)
  let px1 := p.px + p.vx * dtR + p.driftX * dtR
  let py1 := p.py + p.vy * dtR
  let pz1 := p.pz + p.vz * dtR + p.driftZ * dtR
  let progress : ℚ := 1 - p.life
  let radialSpeed : ℝ := (cfg.ageSpreadStrength : ℝ) * (progress : ℝ) ^ (1.15 : ℝ)
  let px2 := if 0 < progress then px1 + p.expandX * radialSpeed * dtR else px1
  let pz2 := if 0 < progress then pz1 + p.expandZ * radialSpeed * dtR else pz1
  let vy1 := p.vy + 0.025 * dtR
  let vx1 := p.vx + ((ir.j1 : ℝ) - 0.5) * (0.02 * dtR)
  let vz1 := p.vz + ((ir.j2 : ℝ) - 0.5) * (0.02 * dtR)
  let dX1 := p.driftX + ((ir.j3 : ℝ) - 0.5) * (0.005 * dtR)
  let dZ1 := p.driftZ + ((ir.j4 : ℝ) - 0.5) * (0.005 * dtR)
  let dX2 := if 0.05 < jsHypot dX1 dZ1 then dX1 * 0.95 else dX1
  let dZ2 := if 0.05 < jsHypot dX1 dZ1 then dZ1 * 0.95 else dZ1
  let damping : ℝ := (0.96 : ℝ) ^ (max 1 (dtR * 60))
  let py2 := min py1 ((env.waterSurfaceY : ℝ) - 0.01)
  let xz := clampRadius ((env.beakerRadius : ℝ) * 0.98) px2 pz2
  { p with px := xz.1, py := py2, pz := xz.2,
           vx := vx1 * damping, vy := vy1 * damping, vz := vz1 * damping,
           driftX := dX2, driftZ := dZ2 }

/-- Life/fade part of the per-particle integration (diffusion.js lines
526-536): linear life decay clamped at 0, then for ungated (`gate < 0.5`)
particles with an active fade, the fade timer advance, the life upper bound
`1 - min(1, t/duration)`, and the kill at fade completion.  Reads and
writes only `life`, `gate`, `fadeTimer`, `fadeDuration`. -/
def integLife (cfg : PlumeConfig) (dt : ℚ) (p : Particle) : Particle :=
  let l1 := p.life - dt / cfg.lifeSeconds
  let l2 := if l1 < 0 then 0 else l1
  if p.gate = false ∧ 0 < p.fadeDuration then
    let ft := p.fadeTimer + dt
    let k := min 1 (ft / p.fadeDuration)
    let l3 := if 1 - k < l2 then 1 - k else l2
    if 1 ≤ k then { p with life := 0, fadeTimer := ft, fadeDuration := 0 }
    else { p with life := l3, fadeTimer := ft, fadeDuration := p.fadeDuration }
  else { p with life := l2 }

/-- Full per-particle integration step, in source order: positions first
(through the radial clamp, lines 500-525), then life and fade (lines 526-536). -/
noncomputable def integrateParticle (env : PlumeEnv) (cfg : PlumeConfig)
    (dt : ℚ) (ir : IntegRands) (p : Particle) : Particle :=
  integLife cfg dt (integMove env cfg dt ir p)

/-- The integration loop over the pool (diffusion.js lines 497-537): slots
with `life <= 0` are skipped (`continue`), the rest are integrated; `n` is
the index of the first list element, used to index the random draws. -/
def integratePool (f : ℕ → Particle → Particle) : ℕ → List Particle → List Particle
  | _, [] => []
  | n, p :: ps => (if p.life ≤ 0 then p else f n p) :: integratePool f (n + 1) ps

/-! ### update(dt) top level (diffusion.js lines 392-549) -/

/-- All random draws consumed by one `update(dt)` call. -/
structure UpdateRands where
  budgetQ : ℚ
  drain : ℕ → DrainRands
  integ : ℕ → IntegRands

/-- diffusion.js line 356 `addSource`: `ensurePoints()` then push a surface
request. -/
def addSource (x z : ℝ) (count : ℤ) (st : PlumeState) : PlumeState :=
  { st with pointsCreated := true,
            spawnQueue := st.spawnQueue ++ [⟨x, z, count, false, none, none⟩] }

/-- The debug-burst block at the top of `update` (diffusion.js lines 393-395). -/
def updateDebug (dt : ℚ) (st : PlumeState) : PlumeState :=
  if st.debugForce = true then
    let t := st.debugT + dt
    if 0.12 < t then addSource 0 0 30 { st with debugT := 0 }
    else { st with debugT := t }
  else st

/-- Spawn half of the `if (points)` body of `update(dt)` (diffusion.js
lines 397-495): build the density grid, compute the spawn budget, drain
the queue. -/
noncomputable def updateSpawn (env : PlumeEnv) (ur : UpdateRands) (dt : ℚ)
    (st : PlumeState) : PlumeState :=
  let cfg := st.config
  let grid := buildGrid env cfg st.pool
  let ba := spawnBudget cfg.spawnRate cfg.spawnRateMultiplier ur.budgetQ dt
    st.spawnAccum (!st.spawnQueue.isEmpty)
  let qp := drainQueue env cfg ur.drain ba.1.toNat 0 grid st.spawnQueue st.pool
  { st with spawnQueue := qp.1, pool := qp.2, spawnAccum := ba.2 }

/-- Body of `update(dt)` guarded by `if (points)` (diffusion.js lines
396-542): the spawn half followed by the integration of every alive
particle. -/
noncomputable def updateCore (env : PlumeEnv) (ur : UpdateRands) (dt : ℚ)
    (st : PlumeState) : PlumeState :=
  if st.pointsCreated = false then st
  else
    let st1 := updateSpawn env ur dt st
    let pool2 := integratePool
      (fun i p => integrateParticle env st.config dt (ur.integ i) p) 0 st1.pool
    { st1 with pool := pool2 }

/-- diffusion.js `update(dt)` (lines 392-549): the debug block runs first,
then the guarded body. -/
noncomputable def update (env : PlumeEnv) (ur : UpdateRands) (dt : ℚ)
    (st : PlumeState) : PlumeState :=
  updateCore env ur dt (updateDebug dt st)

/-! ### Bottom-source API (diffusion.js lines 368-388, 702-713) -/

/-- diffusion.js `addBottomSource` (lines 371-380): blocked while the
mixing lockout is set; otherwise `ensurePoints()`, conversion of the hex
color, application of the horizontal bottom-plume offset, and pushing a
bottom request with the style overrides. -/
def addBottomSource (x z : ℝ) (count : ℤ) (color : ℕ) (ignoreIndicator : Bool)
    (saturation opacity brightness : ℚ) (st : PlumeState) : PlumeState :=
  if st.bottomPlumeDisabled = true then st
  else
    { st with pointsCreated := true,
              spawnQueue := st.spawnQueue ++
                [⟨x + (st.bottomOffsetX : ℝ), z + (st.bottomOffsetZ : ℝ), count, true,
                  some ⟨ignoreIndicator, saturation, opacity, brightness, none⟩,
                  some (hexToRgb color)⟩] }

/-- diffusion.js `disableBottomPlumes` (lines 382-387): set the lockout and
optionally splice out every queued bottom entry. -/
def disableBottomPlumes (clearExistingQueue : Bool) (st : PlumeState) : PlumeState :=
  { st with bottomPlumeDisabled := true,
            spawnQueue := if clearExistingQueue then st.spawnQueue.filter (fun r => !r.bottom)
                          else st.spawnQueue }

/-- diffusion.js `enableBottomPlumes` (line 388). -/
def enableBottomPlumes (st : PlumeState) : PlumeState :=
  { st with bottomPlumeDisabled := false }

/-- diffusion.js `fadeOutBottomPlumes` (lines 702-713): a no-op before
`points` exists; otherwise every alive ungated (`gate < 0.5`) particle gets
`fadeDurations[i] = durationSec` and `fadeTimers[i] = 0`. -/
def fadeOutBottomPlumes (durationSec : ℚ) (st : PlumeState) : PlumeState :=
  if st.pointsCreated = false then st
  else
    { st with pool := st.pool.map (fun p =>
        if 0 < p.life ∧ p.gate = false
        then { p with fadeDuration := durationSec, fadeTimer := 0 }
        else p) }

/-! ### setPlumeConfig (diffusion.js lines 619-651) -/

/-- The optional-argument object of `setPlumeConfig` (a JS field is either
present or `undefined`). -/
structure PlumeConfigArgs where
  spawnRate : Option ℚ := none
  spawnRateMultiplier : Option ℚ := none
  lifeSeconds : Option ℚ := none
  maxActive : Option ℚ := none
  alphaCurveExp : Option ℚ := none
  sizeCurveExp : Option ℚ := none
  minAlpha : Option ℚ := none
  enabled : Option Bool := none
  baselineEmissionRate : Option ℚ := none
  ageSpreadStrength : Option ℚ := none
  cellSize : Option ℚ := none
  maxPerCell : Option ℚ := none
  suppressionProbability : Option ℚ := none

/-- The clamping assignments of `setPlumeConfig` (diffusion.js lines
635-647): each provided field is clamped into its legal range, each omitted
field is left unchanged. -/
def applyConfigArgs (a : PlumeConfigArgs) (c : PlumeConfig) : PlumeConfig :=
  { spawnRate := match a.spawnRate with
      | some v => max 0 v
      | none => c.spawnRate,
    spawnRateMultiplier := match a.spawnRateMultiplier with
      | some v => max 0 v
      | none => c.spawnRateMultiplier,
    lifeSeconds := match a.lifeSeconds with
      | some v => max 0.05 v
      | none => c.lifeSeconds,
    maxActive := match a.maxActive with
      | some v => min (maxParticles : ℚ) (max 0 v)
      | none => c.maxActive,
    alphaCurveExp := match a.alphaCurveExp with
      | some v => max 0.01 v
      | none => c.alphaCurveExp,
    sizeCurveExp := match a.sizeCurveExp with
      | some v => max 0.01 v
      | none => c.sizeCurveExp,
    minAlpha := match a.minAlpha with
      | some v => min 1 (max 0 v)
      | none => c.minAlpha,
    enabled := match a.enabled with
      | some v => v
      | none => c.enabled,
    baselineEmissionRate := match a.baselineEmissionRate with
      | some v => max 0 v
      | none => c.baselineEmissionRate,
    ageSpreadStrength := match a.ageSpreadStrength with
      | some v => max 0 v
      | none => c.ageSpreadStrength,
    cellSize := match a.cellSize with
      | some v => max 0.01 v
      | none => c.cellSize,
    maxPerCell := match a.maxPerCell with
      | some v => max 1 v
      | none => c.maxPerCell,
    suppressionProbability := match a.suppressionProbability with
      | some v => min 1 (max 0 v)
      | none => c.suppressionProbability }

/-- `setPlumeConfig` as a state transition (it ends with `ensurePoints()`,
diffusion.js line 649; the `requireIndicator` uniform write is
rendering-only). -/
def setPlumeConfigOp (a : PlumeConfigArgs) (st : PlumeState) : PlumeState :=
  { st with config := applyConfigArgs a st.config, pointsCreated := true }

/-- diffusion.js `isIndicatorEnabled` (line 758):
`!!(waterUniforms && waterUniforms.uIndicatorEnabled && value > 0.5)`;
`none` models an unbound `waterUniforms`/missing uniform. -/
def isIndicatorEnabled (uIndicatorEnabled : Option ℚ) : Bool :=
  match uIndicatorEnabled with
  | none => false
  | some v => decide (0.5 < v)

/-! ### Indicator field global concentration (diffusion.js lines 106-155)

The 2D canvas blurring/decay is performed by the browser's 2D canvas API
and is external to the repository; what `step` derives from it is the mean
of a byte channel, `mean = sum(data[i+1]) / (255 * size * size)`, which
always lies in `[0, 1]`.  The sampled mean is therefore an input of the
embedded step, and the concentration recursion (lines 135-153) is embedded
exactly. -/

/-- diffusion.js line 145: `target = Math.min(1.0, mean * 2.5)`. -/
def concTarget (mean : ℚ) : ℚ := min 1 (mean * 2.5)

/-- The `uGlobalConc` update of one executed diffusion tick (diffusion.js
lines 145-153): asymmetric fast-rise (`mean > 0.01`) / slow-decay blend. -/
def concStep (conc mean : ℚ) : ℚ :=
  if 0.01 < mean then conc * 0.985 + concTarget mean * (1 - 0.985)
  else max (conc * 0.999) (concTarget mean)

/-- Mutable scalars of the indicator-field stepper (diffusion.js lines
107-109 plus the water uniform `uGlobalConc`). -/
structure IndicatorState where
  diffuseAccum : ℚ
  concAccum : ℚ
  lastMean : ℚ
  conc : ℚ

/-- diffusion.js `step(dt)` (lines 110-155): the ~30 Hz throttle on
`_diffuseAccum`, the ~4 Hz mean re-sampling cadence on `_concAccum` (the
freshly sampled canvas mean `sampleMean` is only consulted when the cadence
fires, otherwise `_lastMean` is reused), and the `uGlobalConc` blend. -/
def stepIndicator (dt sampleMean : ℚ) (s : IndicatorState) : IndicatorState :=
  let da := s.diffuseAccum + dt
  if da < 1 / 30 then { s with diffuseAccum := da }
  else
    let ca := s.concAccum + da
    if 1 / 4 ≤ ca then
      { diffuseAccum := 0, concAccum := 0, lastMean := sampleMean,
        conc := concStep s.conc sampleMean }
    else
      { diffuseAccum := 0, concAccum := ca, lastMean := s.lastMean,
        conc := concStep s.conc s.lastMean }

/-! ### Powder system (src/lib/powder.js) -/

/-- One powder grain: a slot of the batch's `positions`/`velocities`
arrays plus its `settledFlags` byte. -/
structure Grain where
  gx : ℝ
  gy : ℝ
  gz : ℝ
  vx : ℝ
  vy : ℝ
  vz : ℝ
  settled : Bool

/-- One powder batch: the `points.position` origin, the material opacity
and the `state` record of powder.js lines 53-73.  `waterSurfaceY = none`
models the `Infinity` sentinel (so `isFinite` fails); `toLocal` models the
`beakerGroup.worldToLocal` transform of the (x, y, z) world point to local
(x, z) when a beaker group handle is present (`hasTransform`). -/
structure Batch where
  originX : ℝ
  originY : ℝ
  originZ : ℝ
  visible : Bool
  opacity : ℚ
  grains : List Grain
  dropping : Bool
  dropElapsed : ℚ
  bottomYWorld : ℝ
  centerX : ℝ
  centerZ : ℝ
  beakerRadius : ℝ
  swirling : Bool
  swirlElapsed : ℚ
  swirlDuration : ℚ
  swirlCenterX : ℝ
  swirlCenterZ : ℝ
  swirlStrength : ℝ
  swirlInward : ℝ
  swirlDrag : ℝ
  swirlDir : ℝ
  dissolveActive : Bool
  dissolveElapsed : ℚ
  dissolveDurationSec : ℚ
  dead : Bool
  waterSurfaceY : Option ℝ
  enterNotified : Bool
  hasTransform : Bool
  toLocal : ℝ × ℝ × ℝ → ℝ × ℝ

/-- The dropping-phase step for one grain (powder.js lines 199-249):
gravity, underwater buoyancy and drag, position integration, the bottom
clamp that marks the grain settled, and the radial clamp.  Returns the new
grain, whether it touched bottom this tick (a `bottomHits` increment) and
whether it was underwater (feeding the one-shot `onEnterWater` flag). -/
noncomputable def dropGrainStep (b : Batch) (dt : ℚ) (g : Grain) :
    Grain × Bool × Bool :=
  let dtR : ℝ := (dt : ℝ)
  let grav : ℝ := 6
  let baseY := b.originY + g.gy
  let inWater : Bool := match b.waterSurfaceY with
    | some s => decide (baseY ≤ s - 0.001)
    | none => false
  let vy1 := g.vy - grav * dtR
  let vy2 := if inWater = true then (vy1 + grav * 0.45 * dtR) * 0.93 else vy1
  let vx1 := if inWater = true then g.vx * 0.975 else g.vx
  let vz1 := if inWater = true then g.vz * 0.975 else g.vz
  let x1 := g.gx + vx1 * dtR
  let y1 := g.gy + vy2 * dtR
  let z1 := g.gz + vz1 * dtR
  let worldY := b.originY + y1
  let hit : Bool := decide (worldY ≤ b.bottomYWorld + 0.01)
  let y2 := if hit = true then (b.bottomYWorld + 0.01) - b.originY else y1
  let vy3 := if hit = true then 0 else vy2
  let vx2 := if hit = true then vx1 * 0.96 else vx1
  let vz2 := if hit = true then vz1 * 0.96 else vz1
  let settled1 := g.settled || hit
  let worldX := b.originX + x1
  let worldZ := b.originZ + z1
  let dx := worldX - b.centerX
  let dz := worldZ - b.centerZ
  let r := jsHypot dx dz
  let maxR := max 0 (b.beakerRadius - 0.06)
  let over : Bool := decide (maxR < r)
  let s := maxR / (r + 1e-6)
  let x2 := if over = true then (b.centerX + dx * s) - b.originX else x1
  let z2 := if over = true then (b.centerZ + dz * s) - b.originZ else z1
  let vx3 := if over = true then vx2 * 0.8 else vx2
  let vz3 := if over = true then vz2 * 0.8 else vz2
  (⟨x2, y2, z2, vx3, vy3, vz3, settled1⟩, hit, inWater)

/-- Dropping phase of `update(dt)` for one batch (powder.js lines 194-258):
integrate every grain, accumulate `bottomHits`, fire the one-shot
enter-water flag, advance `dropElapsed`, and end the dropping state when
`hitFrac >= 0.6` or `dropElapsed >= 8.0`. -/
noncomputable def dropPhase (dt : ℚ) (b : Batch) : Batch :=
  if b.dropping = false then b
  else
    let stepped := b.grains.map (dropGrainStep b dt)
    let grains1 := stepped.map (fun t => t.1)
    let bottomHits : ℕ := stepped.countP (fun t => t.2.1)
    let notified := b.enterNotified || stepped.any (fun t => t.2.2)
    let elapsed1 := b.dropElapsed + dt
    let hitFrac : ℝ := (bottomHits : ℝ) / (b.grains.length : ℝ)
    let stillDropping : Bool := !(decide ((0.6 : ℝ) ≤ hitFrac) || decide ((8 : ℚ) ≤ elapsed1))
    { b with grains := grains1, enterNotified := notified,
             dropElapsed := elapsed1, dropping := stillDropping }

/-- Swirl-phase step for one grain (powder.js lines 275-311): bottom
re-clamp, tangential plus inward force, position integration, radial
clamp, exponential velocity damping `exp(-drag * dt)`. -/
noncomputable def swirlGrainStep (b : Batch) (dt strength inward : ℝ) (g : Grain) : Grain :=
  let y1 := if b.originY + g.gy ≤ b.bottomYWorld + 0.01 then (b.bottomYWorld + 0.01) - b.originY else g.gy
  let vy1 := if b.originY + g.gy ≤ b.bottomYWorld + 0.01 then 0 else g.vy
  let worldX := b.originX + g.gx
  let worldZ := b.originZ + g.gz
  let dx := worldX - b.swirlCenterX
  let dz := worldZ - b.swirlCenterZ
  let r := jsHypot dx dz + 1e-6
  let tx := (-dz / r) * b.swirlDir
  let tz := (dx / r) * b.swirlDir
  let vx1 := g.vx + (tx * strength - (dx / r) * inward) * dt
  let vz1 := g.vz + (tz * strength - (dz / r) * inward) * dt
  let x1 := g.gx + vx1 * dt
  let z1 := g.gz + vz1 * dt
  let ndx := (b.originX + x1) - b.centerX
  let ndz := (b.originZ + z1) - b.centerZ
  let nr := jsHypot ndx ndz
  let maxR := max 0 (b.beakerRadius - 0.06)
  let over : Bool := decide (maxR < nr)
  let s := maxR / (nr + 1e-6)
  let x2 := if over = true then (b.centerX + ndx * s) - b.originX else x1
  let z2 := if over = true then (b.centerZ + ndz * s) - b.originZ else z1
  let vx2 := if over = true then vx1 * 0.85 else vx1
  let vz2 := if over = true then vz1 * 0.85 else vz1
  let damp := Real.exp (-(max 0 b.swirlDrag) * dt)
  ⟨x2, y1, z2, vx2 * damp, vy1, vz2 * damp, g.settled⟩

/-- Swirl phase of `update(dt)` for one batch (powder.js lines 260-317):
runs only when not dropping and swirling; force fade-out over the final
30% of the swirl duration; swirl ends when `swirlElapsed` reaches
`swirlDuration`. -/
noncomputable def swirlPhase (dt : ℚ) (b : Batch) : Batch :=
  if b.dropping = true ∨ b.swirling = false then b
  else
    let t : ℚ := b.swirlElapsed
    let bigT : ℚ := max 0.001 b.swirlDuration
    let fade : ℝ := if bigT * 0.7 < t then max 0 (1 - ((t : ℝ) - (bigT : ℝ) * 0.7) / ((bigT : ℝ) * 0.3)) else 1
    let strength := b.swirlStrength * fade
    let inward := b.swirlInward * fade
    let grains1 := b.grains.map (swirlGrainStep b (dt : ℝ) strength inward)
    let elapsed1 := b.swirlElapsed + dt
    { b with grains := grains1, swirlElapsed := elapsed1,
             swirling := !(decide (b.swirlDuration ≤ elapsed1)) }

/-- Dissolve fade of `update(dt)` for one batch (powder.js lines 319-330):
linear opacity fade; the batch is hidden once opacity drops to `<= 0.02`. -/
def dissolvePhase (dt : ℚ) (b : Batch) : Batch :=
  if b.dissolveActive = false then b
  else
    let e1 := b.dissolveElapsed + dt
    let dur := max 0.001 b.dissolveDurationSec
    let k := min 1 (e1 / dur)
    let newOpacity := max 0 (1 - k)
    if newOpacity ≤ 0.02 then
      { b with dissolveElapsed := e1, opacity := newOpacity,
               visible := false, dissolveActive := false }
    else
      { b with dissolveElapsed := e1, opacity := newOpacity }

/-- Per-batch part of powder.js `update(dt)` (lines 188-331): skip dead
batches and fully idle invisible batches, then run the dropping, swirl and
dissolve phases in source order on the mutated state. -/
noncomputable def batchTick (dt : ℚ) (b : Batch) : Batch :=
  if b.dead = true then b
  else if b.visible = false ∧ b.dropping = false ∧ b.swirling = false ∧
          b.dissolveActive = false then b
  else dissolvePhase dt (swirlPhase dt (dropPhase dt b))

/-- Number of grains whose settled flag is set. -/
def settledCount (b : Batch) : ℕ := b.grains.countP (fun g => g.settled)

/-- The argument record of a `diffusion.addBottomSource` call made by the
powder system (powder.js lines 411-418). -/
structure BottomCall where
  x : ℝ
  z : ℝ
  count : ℤ
  color : ℕ
  ignoreIndicator : Bool
  saturation : ℚ
  opacity : ℚ
  brightness : ℚ

/-- Reaction-color lookup (powder.js lines 398-410): green when the
chemistry state reports `pHScore > 0.15`, otherwise blue; blue when the
chemistry state is unavailable. -/
def reactionColor (pHScore : Option ℚ) : ℕ :=
  match pHScore with
  | some s => if 0.15 < s then 0x00b15a else 0x0b3c88
  | none => 0x0b3c88

/-- The batch scan of the emission block (powder.js lines 350-427): find
the first visible, non-dropping batch with at least 20 settled grains,
compute the settled centroid, convert it to beaker-local coordinates, and
then either abort everything (`break`) because the indicator is disabled,
or produce the single `addBottomSource` call. -/
noncomputable def scanBatches (uIndicatorEnabled : Option ℚ) (pHScore : Option ℚ) :
    List Batch → Option BottomCall
  | [] => none
  | b :: rest =>
    if b.visible = false ∨ b.dropping = true then scanBatches uIndicatorEnabled pHScore rest
    else
      let sc := settledCount b
      if sc < 20 then scanBatches uIndicatorEnabled pHScore rest
      else
        let settledGrains := b.grains.filter (fun g => g.settled)
        let sx := (settledGrains.map (fun g => g.gx)).sum / (sc : ℝ)
        let sz := (settledGrains.map (fun g => g.gz)).sum / (sc : ℝ)
        let wx := b.originX + sx
        let wz := b.originZ + sz
        let lxz : ℝ × ℝ :=
          if b.hasTransform = true then b.toLocal (wx, b.bottomYWorld, wz)
          else (wx - b.centerX, wz - b.centerZ)
        if isIndicatorEnabled uIndicatorEnabled = false then none
        else some ⟨lxz.1, lxz.2, 18, reactionColor pHScore, false, 0.70, 0.23, 1⟩

/-- Whole-system powder state: the batch list and the emission throttle
accumulator (powder.js lines 35, 139). -/
structure PowderState where
  batches : List Batch
  plumeSpawnAccum : ℚ

/-- powder.js `update(dt)` (lines 185-434) with a diffusion manager
attached: tick every batch, then run the throttled bottom-plume emission
block (interval 0.12 s, performed only when no batch is swirling), which
produces at most one `addBottomSource` call.  Returns the new powder state
and the emitted call, if any. -/
noncomputable def powderUpdate (dt : ℚ) (uIndicatorEnabled : Option ℚ)
    (pHScore : Option ℚ) (ps : PowderState) : PowderState × Option BottomCall :=
  let batches1 := ps.batches.map (batchTick dt)
  if batches1.any (fun b => b.swirling) then
    ({ batches := batches1, plumeSpawnAccum := ps.plumeSpawnAccum }, none)
  else
    let accum1 := ps.plumeSpawnAccum + dt
    if accum1 < 0.12 then
      ({ batches := batches1, plumeSpawnAccum := accum1 }, none)
    else
      ({ batches := batches1, plumeSpawnAccum := 0 },
        scanBatches uIndicatorEnabled pHScore batches1)

/-! ### Operation sequences over the plume state -/

/-- The plume-facing API calls a caller may issue between frames. -/
inductive PlumeOp
  | source (x z : ℝ) (count : ℤ)
  | bottomSource (x z : ℝ) (count : ℤ) (color : ℕ) (ignoreIndicator : Bool)
      (saturation opacity brightness : ℚ)
  | tick (ur : UpdateRands) (dt : ℚ)
  | disableBottom (clearExistingQueue : Bool)
  | enableBottom
  | fadeBottom (durationSec : ℚ)

noncomputable def runOp (env : PlumeEnv) : PlumeOp → PlumeState → PlumeState
  | .source x z c => addSource x z c
  | .bottomSource x z c col ig sa op br => addBottomSource x z c col ig sa op br
  | .tick ur dt => update env ur dt
  | .disableBottom b => disableBottomPlumes b
  | .enableBottom => enableBottomPlumes
  | .fadeBottom d => fadeOutBottomPlumes d

noncomputable def runOps (env : PlumeEnv) (ops : List PlumeOp) (st : PlumeState) :
    PlumeState :=
  ops.foldl (fun s op => runOp env op s) st

/-- A sequence of `update(dt)` frames, each with its own random draws. -/
noncomputable def runTicks (env : PlumeEnv) (ticks : List (ℚ × UpdateRands))
    (st : PlumeState) : PlumeState :=
  ticks.foldl (fun s t => update env t.2 t.1 s) st

/-! ### Frame lemmas: fields untouched by the various transitions -/

theorem updateDebug_pool (dt : ℚ) (st : PlumeState) :
    (updateDebug dt st).pool = st.pool := by
  unfold updateDebug addSource
  split
  · dsimp only
    split <;> rfl
  · rfl

theorem updateDebug_config (dt : ℚ) (st : PlumeState) :
    (updateDebug dt st).config = st.config := by
  unfold updateDebug addSource
  split
  · dsimp only
    split <;> rfl
  · rfl

theorem updateDebug_disabled (dt : ℚ) (st : PlumeState) :
    (updateDebug dt st).bottomPlumeDisabled = st.bottomPlumeDisabled := by
  unfold updateDebug addSource
  split
  · dsimp only
    split <;> rfl
  · rfl

theorem updateDebug_points (dt : ℚ) (st : PlumeState) (h : st.pointsCreated = true) :
    (updateDebug dt st).pointsCreated = true := by
  unfold updateDebug addSource
  split
  · dsimp only
    split
    · rfl
    · exact h
  · exact h

theorem update_config (env : PlumeEnv) (ur : UpdateRands) (dt : ℚ) (st : PlumeState) :
    (update env ur dt st).config = st.config := by
  unfold update updateCore
  split
  · exact updateDebug_config dt st
  · exact updateDebug_config dt st

theorem update_disabled (env : PlumeEnv) (ur : UpdateRands) (dt : ℚ) (st : PlumeState) :
    (update env ur dt st).bottomPlumeDisabled = st.bottomPlumeDisabled := by
  unfold update updateCore
  split
  · exact updateDebug_disabled dt st
  · exact updateDebug_disabled dt st

theorem update_points (env : PlumeEnv) (ur : UpdateRands) (dt : ℚ) (st : PlumeState)
    (h : st.pointsCreated = true) : (update env ur dt st).pointsCreated = true := by
  unfold update updateCore
  split
  · exact updateDebug_points dt st h
  · exact updateDebug_points dt st h

theorem update_pool_of_points (env : PlumeEnv) (ur : UpdateRands) (dt : ℚ)
    (st : PlumeState) (h : st.pointsCreated = true) :
    (update env ur dt st).pool =
      integratePool (fun i p => integrateParticle env st.config dt (ur.integ i) p) 0
        (updateSpawn env ur dt (updateDebug dt st)).pool := by
  unfold update updateCore
  rw [if_neg (by rw [updateDebug_points dt st h]; exact fun hf => nomatch hf)]
  rw [updateDebug_config dt st]

/-! ### Claim C1: no indicator, no bottom-source spawn from powder settling -/

theorem scanBatches_indicator_off (u pH : Option ℚ) (hs : isIndicatorEnabled u = false) :
    ∀ bs : List Batch, scanBatches u pH bs = none := by
  intro bs
  induction bs with
  | nil => rfl
  | cons b rest ih =>
    unfold scanBatches
    split
    · exact ih
    · dsimp only
      split
      · exact ih
      · simp only [hs, if_pos]

/-- Claim C1: if `isIndicatorEnabled()` returns false, a `powder.update(dt)`
tick performs no `addBottomSource` call, for every batch list and every
settled-grain count (the gate at powder.js lines 388-391 breaks out of the
batch scan before the call). -/
theorem C1_no_indicator_no_bottom_source (dt : ℚ) (u pH : Option ℚ) (ps : PowderState)
    (hs : isIndicatorEnabled u = false) :
    (powderUpdate dt u pH ps).2 = none := by
  unfold powderUpdate
  dsimp only
  split
  · rfl
  · split
    · rfl
    · exact scanBatches_indicator_off u pH hs _

theorem C1_witness :
    isIndicatorEnabled (some 0) = false ∧
    (powderUpdate 1 (some 0) none ⟨[], 0⟩).2 = none :=
  ⟨by norm_num [isIndicatorEnabled],
   C1_no_indicator_no_bottom_source 1 (some 0) none ⟨[], 0⟩ (by norm_num [isIndicatorEnabled])⟩

/-! ### Claim C8: disableBottomPlumes lockout -/

/-- Claim C8: `disableBottomPlumes({clearExistingQueue:true})` purges every
queued bottom request (an all-bottom queue becomes empty) and sets the
lockout flag; while the flag is set every `addBottomSource` call is a
strict no-op; and none of `addSource`, `addBottomSource`, `update` clears
the flag, so the lockout persists until `enableBottomPlumes()`. -/
theorem C8_disable_bottom_lockout (env : PlumeEnv) :
    (∀ st : PlumeState, (∀ r ∈ st.spawnQueue, r.bottom = true) →
        (disableBottomPlumes true st).spawnQueue = [])
    ∧ (∀ (st : PlumeState) (ce : Bool),
        (disableBottomPlumes ce st).bottomPlumeDisabled = true)
    ∧ (∀ (st : PlumeState) (x z : ℝ) (c : ℤ) (col : ℕ) (ig : Bool) (sa o br : ℚ),
        st.bottomPlumeDisabled = true → addBottomSource x z c col ig sa o br st = st)
    ∧ (∀ (st : PlumeState) (x z : ℝ) (c : ℤ),
        (addSource x z c st).bottomPlumeDisabled = st.bottomPlumeDisabled)
    ∧ (∀ (st : PlumeState) (x z : ℝ) (c : ℤ) (col : ℕ) (ig : Bool) (sa o br : ℚ),
        (addBottomSource x z c col ig sa o br st).bottomPlumeDisabled =
          st.bottomPlumeDisabled)
    ∧ (∀ (st : PlumeState) (ur : UpdateRands) (dt : ℚ),
        (update env ur dt st).bottomPlumeDisabled = st.bottomPlumeDisabled) := by
  refine ⟨?_, ?_, ?_, ?_, ?_, ?_⟩
  · intro st h
    simp only [disableBottomPlumes, if_pos]
    rw [List.filter_eq_nil_iff]
    intro r hr
    simp [h r hr]
  · intro st ce
    rfl
  · intro st x z c col ig sa o br h
    unfold addBottomSource
    rw [if_pos h]
  · intro st x z c
    rfl
  · intro st x z c col ig sa o br
    unfold addBottomSource
    split <;> rfl
  · intro st ur dt
    exact update_disabled env ur dt st

theorem C8_witness :
    (∀ r ∈ (mkInitState defaultPlumeConfig).spawnQueue, r.bottom = true) ∧
    (disableBottomPlumes true (mkInitState defaultPlumeConfig)).spawnQueue = [] :=
  ⟨by simp [mkInitState],
   (C8_disable_bottom_lockout ⟨0.95, 0, 0⟩).1 (mkInitState defaultPlumeConfig)
     (by simp [mkInitState])⟩

/-! ### Claim C9: spawn budget computation -/

/-- Claim C9 (amended): with
`a1 = accum + rate * mult * (0.9 + rng*0.2) * dt` the incremented
accumulator, the per-tick budget is `floor a1` when the queue is empty or
`floor a1 > 0` (and then `floor a1` is subtracted from the accumulator),
while whenever `floor a1 = 0` — not only when the accumulator is exactly
zero — and the queue is non-empty, a budget of 1 is forced and the
accumulator is reset to 0. -/
theorem C9_spawn_budget (rate mult rngv dt accum : ℚ) (qne : Bool) :
    (qne = false →
      (spawnBudget rate mult rngv dt accum qne).1 =
        ⌊accum + rate * mult * (0.9 + rngv * 0.2) * dt⌋)
    ∧ (0 < ⌊accum + rate * mult * (0.9 + rngv * 0.2) * dt⌋ →
      spawnBudget rate mult rngv dt accum qne =
        (⌊accum + rate * mult * (0.9 + rngv * 0.2) * dt⌋,
         accum + rate * mult * (0.9 + rngv * 0.2) * dt -
           ⌊accum + rate * mult * (0.9 + rngv * 0.2) * dt⌋))
    ∧ (⌊accum + rate * mult * (0.9 + rngv * 0.2) * dt⌋ = 0 → qne = true →
      spawnBudget rate mult rngv dt accum qne = (1, 0)) := by
  unfold spawnBudget
  dsimp only
  refine ⟨?_, ?_, ?_⟩
  · intro h
    subst h
    simp
  · intro h
    rw [if_neg fun hc => absurd h (by rw [hc.1]; exact lt_irrefl 0), if_pos h]
  · intro h hq
    rw [if_pos ⟨h, hq⟩]

theorem C9_witness :
    (false = false) ∧
    ((spawnBudget 6 1 (1/2) (1/60) 0 false).1 =
      ⌊(0 : ℚ) + 6 * 1 * (0.9 + (1/2) * 0.2) * (1/60)⌋) :=
  ⟨rfl, (C9_spawn_budget 6 1 (1/2) (1/60) 0 false).1 rfl⟩

/-- Claim C9 fails as stated: with an empty accumulator, `rate = mult = 1`,
a median stochastic draw and `dt = 1/2`, the incremented accumulator is
`1/2` (not zero), its floor is 0, yet a non-empty queue forces a budget of
1 — so the budget is neither the floor of the accumulator nor covered by
the "accumulator is exactly zero" exception. -/
theorem C9_counterexample :
    (spawnBudget 1 1 (1/2) (1/2) 0 true).1 = 1
    ∧ ⌊(0 : ℚ) + 1 * 1 * (0.9 + (1/2) * 0.2) * (1/2)⌋ = 0
    ∧ (0 : ℚ) + 1 * 1 * (0.9 + (1/2) * 0.2) * (1/2) ≠ 0 := by
  refine ⟨?_, by norm_num, by norm_num⟩
  norm_num [spawnBudget]

/-! ### Claim C6: globalConcentration bounds and decay -/

theorem concStep_bounds (conc mean : ℚ) (hc0 : 0 ≤ conc) (hc1 : conc ≤ 1)
    (hm0 : 0 ≤ mean) (_hm1 : mean ≤ 1) :
    0 ≤ concStep conc mean ∧ concStep conc mean ≤ 1 := by
  have ht0 : (0 : ℚ) ≤ concTarget mean := le_min (by norm_num) (by positivity)
  have ht1 : concTarget mean ≤ 1 := min_le_left _ _
  unfold concStep
  split
  · constructor
    · nlinarith
    · nlinarith
  · constructor
    · exact le_trans (by positivity) (le_max_left _ _)
    · exact max_le (by nlinarith) ht1

/-- Claim C6 (amended): `uGlobalConc` stays within `[0, 1]` after every
`step(dt)` call (given the canvas mean channel values, which lie in
`[0, 1]`); on an executed tick with mean intensity at or below the 0.01
threshold the new value is `max(0.999 * conc, min(1, 2.5 * mean))` — it is
strictly decreasing whenever the decayed current value still exceeds the
floor `min(1, 2.5 * mean)`, and it never drops below that floor (so it is
not strictly decreasing in general: from below the floor it rises to it). -/
theorem C6_conc_bounds_and_decay (dt sampleMean : ℚ) (s : IndicatorState)
    (hc0 : 0 ≤ s.conc) (hc1 : s.conc ≤ 1)
    (hm0 : 0 ≤ sampleMean) (hm1 : sampleMean ≤ 1)
    (hl0 : 0 ≤ s.lastMean) (hl1 : s.lastMean ≤ 1) :
    (0 ≤ (stepIndicator dt sampleMean s).conc ∧ (stepIndicator dt sampleMean s).conc ≤ 1)
    ∧ (∀ conc mean : ℚ, 0 ≤ conc → 0 ≤ mean → mean ≤ 0.01 →
        (concTarget mean < conc * 0.999 → concStep conc mean < conc)
        ∧ concTarget mean ≤ concStep conc mean) := by
  have hconc : (stepIndicator dt sampleMean s).conc = s.conc ∨
      (stepIndicator dt sampleMean s).conc = concStep s.conc sampleMean ∨
      (stepIndicator dt sampleMean s).conc = concStep s.conc s.lastMean := by
    unfold stepIndicator
    dsimp only
    split
    · exact Or.inl rfl
    · split
      · exact Or.inr (Or.inl rfl)
      · exact Or.inr (Or.inr rfl)
  constructor
  · rcases hconc with h | h | h <;> rw [h]
    · exact ⟨hc0, hc1⟩
    · exact concStep_bounds s.conc sampleMean hc0 hc1 hm0 hm1
    · exact concStep_bounds s.conc s.lastMean hc0 hc1 hl0 hl1
  · intro conc mean hc hm0q hmq
    have hcond : ¬((0.01 : ℚ) < mean) := not_lt.mpr hmq
    have ht0 : (0 : ℚ) ≤ concTarget mean := le_min (by norm_num) (by positivity)
    constructor
    · intro hlt
      unfold concStep
      rw [if_neg hcond, max_eq_left (le_of_lt hlt)]
      nlinarith
    · unfold concStep
      rw [if_neg hcond]
      exact le_max_right _ _

theorem C6_witness :
    ((0 : ℚ) ≤ 0 ∧ (0 : ℚ) ≤ 1 ∧ (0 : ℚ) ≤ 1/2 ∧ (1/2 : ℚ) ≤ 1) ∧
    (0 ≤ (stepIndicator (1/30) (1/2) ⟨0, 0, 0, 0⟩).conc ∧
      (stepIndicator (1/30) (1/2) ⟨0, 0, 0, 0⟩).conc ≤ 1) :=
  ⟨⟨le_refl 0, by norm_num, by norm_num, by norm_num⟩,
   (C6_conc_bounds_and_decay (1/30) (1/2) ⟨0, 0, 0, 0⟩ (by norm_num) (by norm_num)
     (by norm_num) (by norm_num) (by norm_num) (by norm_num)).1⟩

/-- Claim C6 fails as stated: on an executed tick with no new splats and a
sampled mean of 0.009 (below the 0.01 threshold), a current concentration
of 0.001 jumps up to the floor 0.0225 = min(1, 2.5 * 0.009), which is an
increase, not a strict decrease. -/
theorem C6_counterexample :
    (9/1000 : ℚ) ≤ 0.01
    ∧ (stepIndicator (1/30) (9/1000) ⟨0, 1/4, 0, 1/1000⟩).conc = 9/400
    ∧ (1/1000 : ℚ) < (stepIndicator (1/30) (9/1000) ⟨0, 1/4, 0, 1/1000⟩).conc := by
  refine ⟨by norm_num, ?_, ?_⟩ <;>
    norm_num [stepIndicator, concStep, concTarget]

/-! ### Claim C10: setPlumeConfig invariants -/

/-- The bounds claimed for the plume configuration. -/
def PlumeConfigOK (c : PlumeConfig) : Prop :=
  0 ≤ c.maxActive ∧ c.maxActive ≤ 1000 ∧ 0.05 ≤ c.lifeSeconds ∧
  0 ≤ c.spawnRate ∧ 0 ≤ c.spawnRateMultiplier ∧ 0 ≤ c.ageSpreadStrength ∧
  0 ≤ c.minAlpha ∧ c.minAlpha ≤ 1 ∧
  0 ≤ c.suppressionProbability ∧ c.suppressionProbability ≤ 1 ∧
  0.01 ≤ c.cellSize ∧ 1 ≤ c.maxPerCell

/-- Claim C10: every `setPlumeConfig` call keeps the configuration within
the claimed bounds (each provided field is clamped into range, the bounds
hold for the initial configuration, hence inductively after every call),
and every omitted field is left unchanged. -/
theorem C10_config_invariants (a : PlumeConfigArgs) (c : PlumeConfig)
    (h : PlumeConfigOK c) :
    PlumeConfigOK (applyConfigArgs a c)
    ∧ PlumeConfigOK defaultPlumeConfig
    ∧ (a.spawnRate = none → (applyConfigArgs a c).spawnRate = c.spawnRate)
    ∧ (a.spawnRateMultiplier = none →
        (applyConfigArgs a c).spawnRateMultiplier = c.spawnRateMultiplier)
    ∧ (a.lifeSeconds = none → (applyConfigArgs a c).lifeSeconds = c.lifeSeconds)
    ∧ (a.maxActive = none → (applyConfigArgs a c).maxActive = c.maxActive)
    ∧ (a.alphaCurveExp = none → (applyConfigArgs a c).alphaCurveExp = c.alphaCurveExp)
    ∧ (a.sizeCurveExp = none → (applyConfigArgs a c).sizeCurveExp = c.sizeCurveExp)
    ∧ (a.minAlpha = none → (applyConfigArgs a c).minAlpha = c.minAlpha)
    ∧ (a.enabled = none → (applyConfigArgs a c).enabled = c.enabled)
    ∧ (a.baselineEmissionRate = none →
        (applyConfigArgs a c).baselineEmissionRate = c.baselineEmissionRate)
    ∧ (a.ageSpreadStrength = none →
        (applyConfigArgs a c).ageSpreadStrength = c.ageSpreadStrength)
    ∧ (a.cellSize = none → (applyConfigArgs a c).cellSize = c.cellSize)
    ∧ (a.maxPerCell = none → (applyConfigArgs a c).maxPerCell = c.maxPerCell)
    ∧ (a.suppressionProbability = none →
        (applyConfigArgs a c).suppressionProbability = c.suppressionProbability) := by
  obtain ⟨h1, h2, h3, h4, h5, h6, h7, h8, h9, h10, h11, h12⟩ := h
  refine ⟨⟨?_, ?_, ?_, ?_, ?_, ?_, ?_, ?_, ?_, ?_, ?_, ?_⟩, ?_,
    ?_, ?_, ?_, ?_, ?_, ?_, ?_, ?_, ?_, ?_, ?_, ?_, ?_⟩
  · cases hv : a.maxActive with
    | none => simp only [applyConfigArgs, hv]; exact h1
    | some v =>
      simp only [applyConfigArgs, hv]
      exact le_min (by norm_num [maxParticles]) (le_max_left 0 _)
  · cases hv : a.maxActive with
    | none => simp only [applyConfigArgs, hv]; exact h2
    | some v =>
      simp only [applyConfigArgs, hv]
      exact le_trans (min_le_left _ _) (by norm_num [maxParticles])
  · cases hv : a.lifeSeconds with
    | none => simp only [applyConfigArgs, hv]; exact h3
    | some v =>
      simp only [applyConfigArgs, hv]
      exact le_max_left _ _
  · cases hv : a.spawnRate with
    | none => simp only [applyConfigArgs, hv]; exact h4
    | some v => simp only [applyConfigArgs, hv]; exact le_max_left 0 v
  · cases hv : a.spawnRateMultiplier with
    | none => simp only [applyConfigArgs, hv]; exact h5
    | some v => simp only [applyConfigArgs, hv]; exact le_max_left 0 v
  · cases hv : a.ageSpreadStrength with
    | none => simp only [applyConfigArgs, hv]; exact h6
    | some v => simp only [applyConfigArgs, hv]; exact le_max_left 0 v
  · cases hv : a.minAlpha with
    | none => simp only [applyConfigArgs, hv]; exact h7
    | some v =>
      simp only [applyConfigArgs, hv]
      exact le_min (by norm_num) (le_max_left 0 _)
  · cases hv : a.minAlpha with
    | none => simp only [applyConfigArgs, hv]; exact h8
    | some v => simp only [applyConfigArgs, hv]; exact min_le_left _ _
  · cases hv : a.suppressionProbability with
    | none => simp only [applyConfigArgs, hv]; exact h9
    | some v =>
      simp only [applyConfigArgs, hv]
      exact le_min (by norm_num) (le_max_left 0 _)
  · cases hv : a.suppressionProbability with
    | none => simp only [applyConfigArgs, hv]; exact h10
    | some v => simp only [applyConfigArgs, hv]; exact min_le_left _ _
  · cases hv : a.cellSize with
    | none => simp only [applyConfigArgs, hv]; exact h11
    | some v => simp only [applyConfigArgs, hv]; exact le_max_left _ _
  · cases hv : a.maxPerCell with
    | none => simp only [applyConfigArgs, hv]; exact h12
    | some v => simp only [applyConfigArgs, hv]; exact le_max_left _ _
  · norm_num [PlumeConfigOK, defaultPlumeConfig]
  all_goals intro hv
  all_goals simp only [applyConfigArgs, hv]

theorem C10_witness :
    PlumeConfigOK defaultPlumeConfig ∧
    PlumeConfigOK (applyConfigArgs {} defaultPlumeConfig) :=
  ⟨by norm_num [PlumeConfigOK, defaultPlumeConfig],
   (C10_config_invariants {} defaultPlumeConfig
     (by norm_num [PlumeConfigOK, defaultPlumeConfig])).1⟩

/-! ### Claim C2: the active cap -/

theorem activeCount_set_le (pool : List Particle) (i : ℕ) (q : Particle) :
    activeCount (pool.set i q) ≤ activeCount pool + 1 := by
  induction pool generalizing i with
  | nil => simp [activeCount]
  | cons p ps ih =>
    cases i with
    | zero =>
      simp only [List.set_cons_zero, activeCount, List.countP_cons]
      split <;> split <;> omega
    | succ n =>
      simp only [List.set_cons_succ, activeCount, List.countP_cons]
      have hih := ih n
      simp only [activeCount] at hih
      omega

theorem spawnParticle_noop (env : PlumeEnv) (cfg : PlumeConfig) (bi : Bool)
    (x z : ℝ) (rgb : ℚ × ℚ × ℚ) (gated : Bool) (sr : SpawnRands)
    (pool : List Particle) (h : cfg.maxActive ≤ (activeCount pool : ℚ)) :
    spawnParticle env cfg bi x z rgb gated sr pool = pool := by
  unfold spawnParticle
  by_cases he : cfg.enabled = false
  · rw [if_pos he]
  · rw [if_neg he, if_pos h]

theorem spawnParticle_cap (env : PlumeEnv) (cfg : PlumeConfig) (bi : Bool)
    (x z : ℝ) (rgb : ℚ × ℚ × ℚ) (gated : Bool) (sr : SpawnRands)
    (pool : List Particle) (m : ℕ) (hm : cfg.maxActive = (m : ℚ))
    (h : activeCount pool ≤ m) :
    activeCount (spawnParticle env cfg bi x z rgb gated sr pool) ≤ m := by
  unfold spawnParticle
  split
  · exact h
  · split
    · exact h
    · next hcap =>
      have hlt : activeCount pool < m := by
        rw [hm] at hcap
        exact_mod_cast lt_of_not_le hcap
      split
      · exact h
      · exact le_trans (activeCount_set_le pool _ _) hlt

theorem drain_activeCount (env : PlumeEnv) (cfg : PlumeConfig)
    (dr : ℕ → DrainRands) (m : ℕ) (hm : cfg.maxActive = (m : ℚ)) :
    ∀ (fuel k : ℕ) (grid : ℕ → ℕ) (q : List SpawnReq) (pool : List Particle),
      activeCount pool ≤ m →
      activeCount (drainQueue env cfg dr fuel k grid q pool).2 ≤ m := by
  intro fuel
  induction fuel with
  | zero =>
    intro k grid q pool h
    simpa [drainQueue] using h
  | succ n ih =>
    intro k grid q pool h
    cases q with
    | nil => simpa [drainQueue] using h
    | cons req rest =>
      simp only [drainQueue]
      apply ih
      split
      · exact spawnParticle_cap env cfg _ _ _ _ _ _ pool m hm h
      · exact h

theorem integratePool_activeCount (f : ℕ → Particle → Particle) :
    ∀ (n : ℕ) (l : List Particle),
      activeCount (integratePool f n l) ≤ activeCount l := by
  intro n l
  induction l generalizing n with
  | nil => simp [integratePool]
  | cons p ps ih =>
    simp only [integratePool, activeCount, List.countP_cons]
    have hih := ih (n + 1)
    simp only [activeCount] at hih
    by_cases hp : p.life ≤ 0
    · rw [if_pos hp]
      omega
    · rw [if_neg hp]
      have : (if decide (0 < (f n p).life) = true then 1 else 0) ≤ 1 := by
        split <;> omega
      have hpp : (if decide (0 < p.life) = true then 1 else 0) = 1 := by
        simp [lt_of_not_le hp]
      omega

theorem update_activeCount (env : PlumeEnv) (ur : UpdateRands) (dt : ℚ)
    (st : PlumeState) (m : ℕ) (hm : st.config.maxActive = (m : ℚ))
    (h : activeCount st.pool ≤ m) :
    activeCount (update env ur dt st).pool ≤ m := by
  unfold update updateCore
  split
  · rw [updateDebug_pool]
    exact h
  · dsimp only
    apply le_trans (integratePool_activeCount _ 0 _)
    unfold updateSpawn
    dsimp only
    apply drain_activeCount
    · rw [updateDebug_config]
      exact hm
    · rw [updateDebug_pool]
      exact h

theorem addBottomSource_pool (x z : ℝ) (c : ℤ) (col : ℕ) (ig : Bool)
    (sa o br : ℚ) (st : PlumeState) :
    (addBottomSource x z c col ig sa o br st).pool = st.pool := by
  unfold addBottomSource
  split <;> rfl

theorem fadeOut_activeCount (d : ℚ) (st : PlumeState) :
    activeCount (fadeOutBottomPlumes d st).pool = activeCount st.pool := by
  unfold fadeOutBottomPlumes
  split
  · rfl
  · dsimp only
    simp only [activeCount, List.countP_map]
    apply List.countP_congr
    intro p _
    simp only [Function.comp_apply]
    split <;> rfl

theorem runOp_config (env : PlumeEnv) (o : PlumeOp) (st : PlumeState) :
    (runOp env o st).config = st.config := by
  cases o with
  | source x z c => rfl
  | bottomSource x z c col ig sa o br =>
    show (addBottomSource x z c col ig sa o br st).config = st.config
    unfold addBottomSource
    split <;> rfl
  | tick ur dt => exact update_config env ur dt st
  | disableBottom b => rfl
  | enableBottom => rfl
  | fadeBottom d =>
    show (fadeOutBottomPlumes d st).config = st.config
    unfold fadeOutBottomPlumes
    split <;> rfl

theorem runOp_activeCount (env : PlumeEnv) (o : PlumeOp) (st : PlumeState)
    (m : ℕ) (hm : st.config.maxActive = (m : ℚ)) (h : activeCount st.pool ≤ m) :
    activeCount (runOp env o st).pool ≤ m := by
  cases o with
  | source x z c => exact h
  | bottomSource x z c col ig sa o br =>
    show activeCount (addBottomSource x z c col ig sa o br st).pool ≤ m
    rw [addBottomSource_pool]
    exact h
  | tick ur dt => exact update_activeCount env ur dt st m hm h
  | disableBottom b => exact h
  | enableBottom => exact h
  | fadeBottom d =>
    show activeCount (fadeOutBottomPlumes d st).pool ≤ m
    rw [fadeOut_activeCount]
    exact h

/-- Claim C2: `spawnParticle` is a strict no-op whenever the live active
count is at or above `maxActive`, and consequently, for every sequence of
`addSource` / `addBottomSource` requests and `update(dt)` ticks (plus the
bottom-plume lockout/fade calls) starting from the freshly created manager,
the number of particles with `life > 0` never exceeds the configured
(integral) `maxActive`. -/
theorem C2_active_within_cap (env : PlumeEnv) (cfg : PlumeConfig) (m : ℕ)
    (hm : cfg.maxActive = (m : ℚ)) :
    (∀ (pool : List Particle) (bi : Bool) (x z : ℝ) (rgb : ℚ × ℚ × ℚ)
        (gated : Bool) (sr : SpawnRands),
        cfg.maxActive ≤ (activeCount pool : ℚ) →
        spawnParticle env cfg bi x z rgb gated sr pool = pool)
    ∧ ∀ ops : List PlumeOp, activeCount (runOps env ops (mkInitState cfg)).pool ≤ m := by
  constructor
  · intro pool bi x z rgb gated sr h
    exact spawnParticle_noop env cfg bi x z rgb gated sr pool h
  · have key : ∀ (ops : List PlumeOp) (st : PlumeState), st.config = cfg →
        activeCount st.pool ≤ m → activeCount (runOps env ops st).pool ≤ m := by
      intro ops
      induction ops with
      | nil => intro st _ h; exact h
      | cons o rest ih =>
        intro st hcfg h
        have h1 : activeCount (runOp env o st).pool ≤ m :=
          runOp_activeCount env o st m (by rw [hcfg]; exact hm) h
        have h2 : (runOp env o st).config = cfg := by
          rw [runOp_config]; exact hcfg
        simpa [runOps, List.foldl_cons] using ih (runOp env o st) h2 h1
    intro ops
    apply key ops (mkInitState cfg) rfl
    have : activeCount (mkInitState cfg).pool = 0 := by
      simp [mkInitState, activeCount, List.countP_eq_zero, deadParticle]
    omega

theorem C2_witness :
    defaultPlumeConfig.maxActive = ((350 : ℕ) : ℚ) ∧
    activeCount (runOps ⟨0.95, 0, 0⟩ [] (mkInitState defaultPlumeConfig)).pool ≤ 350 :=
  ⟨by norm_num [defaultPlumeConfig],
   (C2_active_within_cap ⟨0.95, 0, 0⟩ defaultPlumeConfig 350
     (by norm_num [defaultPlumeConfig])).2 []⟩

/-! ### Claim C3: radial XZ clamp -/

theorem jsHypot_nonneg (x y : ℝ) : 0 ≤ jsHypot x y := Real.sqrt_nonneg _

theorem jsHypot_smul (s x z : ℝ) : jsHypot (x * s) (z * s) = |s| * jsHypot x z := by
  unfold jsHypot
  rw [show (x * s) ^ 2 + (z * s) ^ 2 = s ^ 2 * (x ^ 2 + z ^ 2) by ring,
    Real.sqrt_mul (sq_nonneg s), Real.sqrt_sq_eq_abs]

theorem clampRadius_le (c x z : ℝ) (hc : 0 ≤ c) :
    jsHypot (clampRadius c x z).1 (clampRadius c x z).2 ≤ c := by
  unfold clampRadius
  split
  · next hlt =>
    have hr : 0 < jsHypot x z := lt_of_le_of_lt hc hlt
    dsimp only
    rw [jsHypot_smul, abs_of_nonneg (div_nonneg hc hr.le),
      div_mul_cancel₀ c (ne_of_gt hr)]
  · next hge => exact not_lt.mp hge

theorem integLife_px (cfg : PlumeConfig) (dt : ℚ) (p : Particle) :
    (integLife cfg dt p).px = p.px := by
  unfold integLife
  dsimp only
  split
  · split <;> rfl
  · rfl

theorem integLife_pz (cfg : PlumeConfig) (dt : ℚ) (p : Particle) :
    (integLife cfg dt p).pz = p.pz := by
  unfold integLife
  dsimp only
  split
  · split <;> rfl
  · rfl

theorem integMove_radius (env : PlumeEnv) (cfg : PlumeConfig) (dt : ℚ)
    (ir : IntegRands) (p : Particle) (hR : 0 ≤ env.beakerRadius) :
    jsHypot (integMove env cfg dt ir p).px (integMove env cfg dt ir p).pz ≤
      (env.beakerRadius : ℝ) * 0.98 := by
  have hc : (0 : ℝ) ≤ (env.beakerRadius : ℝ) * 0.98 :=
    mul_nonneg (by exact_mod_cast hR) (by norm_num)
  unfold integMove
  dsimp only
  exact clampRadius_le _ _ _ hc

theorem integrateParticle_radius (env : PlumeEnv) (cfg : PlumeConfig) (dt : ℚ)
    (ir : IntegRands) (p : Particle) (hR : 0 ≤ env.beakerRadius) :
    jsHypot (integrateParticle env cfg dt ir p).px
        (integrateParticle env cfg dt ir p).pz ≤ (env.beakerRadius : ℝ) * 0.98 := by
  unfold integrateParticle
  rw [integLife_px, integLife_pz]
  exact integMove_radius env cfg dt ir p hR

theorem integratePool_mem (f : ℕ → Particle → Particle) :
    ∀ (n : ℕ) (l : List Particle) (q : Particle), q ∈ integratePool f n l →
      (q ∈ l ∧ q.life ≤ 0) ∨ ∃ (i : ℕ) (p : Particle), p ∈ l ∧ q = f i p := by
  intro n l
  induction l generalizing n with
  | nil => intro q hq; simp [integratePool] at hq
  | cons p ps ih =>
    intro q hq
    simp only [integratePool, List.mem_cons] at hq
    rcases hq with h | h
    · by_cases hp : p.life ≤ 0
      · rw [if_pos hp] at h
        exact Or.inl ⟨by rw [h]; exact List.mem_cons_self p ps, by rw [h]; exact hp⟩
      · rw [if_neg hp] at h
        exact Or.inr ⟨n, p, List.mem_cons_self p ps, h⟩
    · rcases ih (n + 1) q h with ⟨hmem, hd⟩ | ⟨i, p2, hmem, heq⟩
      · exact Or.inl ⟨List.mem_cons_of_mem p hmem, hd⟩
      · exact Or.inr ⟨i, p2, List.mem_cons_of_mem p hmem, heq⟩

/-- Claim C3: after every `update(dt)` call (on a manager whose particle
system exists), every alive plume particle has radial XZ distance from the
beaker center at most `beakerRadius * 0.98`: every integrated particle
passes through the in-place rescaling clamp. -/
theorem C3_alive_within_radius (env : PlumeEnv) (ur : UpdateRands) (dt : ℚ)
    (st : PlumeState) (hR : 0 ≤ env.beakerRadius) (hpts : st.pointsCreated = true) :
    ∀ p ∈ (update env ur dt st).pool, 0 < p.life →
      jsHypot p.px p.pz ≤ (env.beakerRadius : ℝ) * 0.98 := by
  intro p hp hlife
  rw [update_pool_of_points env ur dt st hpts] at hp
  rcases integratePool_mem _ 0 _ p hp with ⟨_, hdead⟩ | ⟨i, p0, _, rfl⟩
  · exact absurd hlife (not_lt.mpr hdead)
  · exact integrateParticle_radius env st.config dt (ur.integ i) p0 hR

/-- Zero-valued random draws, used to instantiate witnesses. -/
def zeroSpawnRands : SpawnRands := ⟨0, 0, 0, 0, 0, 0, 0, 0, 0⟩

def zeroUpdateRands : UpdateRands :=
  ⟨0, fun _ => ⟨0, 0, zeroSpawnRands⟩, fun _ => ⟨0, 0, 0, 0⟩⟩

theorem C3_witness :
    (0 : ℚ) ≤ (⟨0.95, 0, 0⟩ : PlumeEnv).beakerRadius ∧
    (addSource 0 0 1 (mkInitState defaultPlumeConfig)).pointsCreated = true ∧
    ∀ p ∈ (update ⟨0.95, 0, 0⟩ zeroUpdateRands (1/60)
        (addSource 0 0 1 (mkInitState defaultPlumeConfig))).pool, 0 < p.life →
      jsHypot p.px p.pz ≤ (((⟨0.95, 0, 0⟩ : PlumeEnv).beakerRadius : ℚ) : ℝ) * 0.98 :=
  ⟨by norm_num, rfl,
   C3_alive_within_radius ⟨0.95, 0, 0⟩ zeroUpdateRands (1/60)
     (addSource 0 0 1 (mkInitState defaultPlumeConfig)) (by norm_num) rfl⟩

/-! ### Claim C4: life never increases inside update -/

theorem integMove_life (env : PlumeEnv) (cfg : PlumeConfig) (dt : ℚ)
    (ir : IntegRands) (p : Particle) : (integMove env cfg dt ir p).life = p.life := rfl

theorem integMove_gate (env : PlumeEnv) (cfg : PlumeConfig) (dt : ℚ)
    (ir : IntegRands) (p : Particle) : (integMove env cfg dt ir p).gate = p.gate := rfl

theorem integMove_fadeTimer (env : PlumeEnv) (cfg : PlumeConfig) (dt : ℚ)
    (ir : IntegRands) (p : Particle) :
    (integMove env cfg dt ir p).fadeTimer = p.fadeTimer := rfl

theorem integMove_fadeDuration (env : PlumeEnv) (cfg : PlumeConfig) (dt : ℚ)
    (ir : IntegRands) (p : Particle) :
    (integMove env cfg dt ir p).fadeDuration = p.fadeDuration := rfl

theorem integLife_life_le (cfg : PlumeConfig) (dt : ℚ) (p : Particle)
    (hdt : 0 ≤ dt) (hls : 0 < cfg.lifeSeconds) (hp : 0 ≤ p.life) :
    (integLife cfg dt p).life ≤ p.life := by
  have hq : 0 ≤ dt / cfg.lifeSeconds := div_nonneg hdt hls.le
  unfold integLife
  dsimp only
  set l2 := if p.life - dt / cfg.lifeSeconds < 0 then 0
    else p.life - dt / cfg.lifeSeconds with hl2def
  have hl2 : l2 ≤ p.life := by
    rw [hl2def]
    split
    · exact hp
    · linarith
  by_cases hcond : p.gate = false ∧ 0 < p.fadeDuration
  · rw [if_pos hcond]
    by_cases hk : (1 : ℚ) ≤ min 1 ((p.fadeTimer + dt) / p.fadeDuration)
    · rw [if_pos hk]
      exact hp
    · rw [if_neg hk]
      dsimp only
      split
      · next hlt => exact le_trans hlt.le hl2
      · exact hl2
  · rw [if_neg hcond]
    exact hl2

theorem integLife_life_le_max (cfg : PlumeConfig) (dt : ℚ) (p : Particle) :
    (integLife cfg dt p).life ≤ max 0 (p.life - dt / cfg.lifeSeconds) := by
  unfold integLife
  dsimp only
  set l2 := if p.life - dt / cfg.lifeSeconds < 0 then 0
    else p.life - dt / cfg.lifeSeconds with hl2def
  have hl2 : l2 = max 0 (p.life - dt / cfg.lifeSeconds) := by
    rw [hl2def]
    split
    · next h => exact (max_eq_left h.le).symm
    · next h => exact (max_eq_right (not_lt.mp h)).symm
  by_cases hcond : p.gate = false ∧ 0 < p.fadeDuration
  · rw [if_pos hcond]
    by_cases hk : (1 : ℚ) ≤ min 1 ((p.fadeTimer + dt) / p.fadeDuration)
    · rw [if_pos hk]
      exact le_max_left _ _
    · rw [if_neg hk]
      dsimp only
      rw [← hl2]
      split
      · next hlt => exact hlt.le
      · exact le_refl _
  · rw [if_neg hcond]
    rw [hl2]

theorem firstDeadIdx_dead :
    ∀ (pool : List Particle) (j : ℕ), firstDeadIdx pool = some j →
      ∃ q, pool[j]? = some q ∧ q.life ≤ 0 := by
  intro pool
  induction pool with
  | nil => intro j h; simp [firstDeadIdx] at h
  | cons p ps ih =>
    intro j h
    unfold firstDeadIdx at h
    split at h
    · next hd =>
      cases h
      exact ⟨p, by simp, hd⟩
    · cases hfd : firstDeadIdx ps with
      | none => rw [hfd] at h; simp at h
      | some j0 =>
        rw [hfd] at h
        simp only [Option.map_some'] at h
        cases h
        obtain ⟨q, hq, hqd⟩ := ih j0 hfd
        exact ⟨q, by simpa using hq, hqd⟩

theorem spawnParticle_getElem_alive (env : PlumeEnv) (cfg : PlumeConfig)
    (bi : Bool) (x z : ℝ) (rgb : ℚ × ℚ × ℚ) (gated : Bool) (sr : SpawnRands)
    (pool : List Particle) (i : ℕ) (p : Particle)
    (hp : pool[i]? = some p) (halive : 0 < p.life) :
    (spawnParticle env cfg bi x z rgb gated sr pool)[i]? = some p := by
  unfold spawnParticle
  split
  · exact hp
  · split
    · exact hp
    · cases hidx : firstDeadIdx pool with
      | none => simp only [hidx]; exact hp
      | some j =>
        simp only [hidx]
        obtain ⟨q, hq, hqd⟩ := firstDeadIdx_dead pool j hidx
        have hne : j ≠ i := by
          rintro rfl
          rw [hp] at hq
          cases hq
          exact absurd halive (not_lt.mpr hqd)
        rw [List.getElem?_set_ne hne]
        exact hp

theorem drain_getElem_alive (env : PlumeEnv) (cfg : PlumeConfig)
    (dr : ℕ → DrainRands) :
    ∀ (fuel k : ℕ) (grid : ℕ → ℕ) (q : List SpawnReq) (pool : List Particle)
      (i : ℕ) (p : Particle), pool[i]? = some p → 0 < p.life →
      (drainQueue env cfg dr fuel k grid q pool).2[i]? = some p := by
  intro fuel
  induction fuel with
  | zero =>
    intro k grid q pool i p hp _
    simpa [drainQueue] using hp
  | succ n ih =>
    intro k grid q pool i p hp halive
    cases q with
    | nil => simpa [drainQueue] using hp
    | cons req rest =>
      simp only [drainQueue]
      apply ih
      · split
        · exact spawnParticle_getElem_alive env cfg _ _ _ _ _ _ pool i p hp halive
        · exact hp
      · exact halive

theorem integratePool_getElem (f : ℕ → Particle → Particle) :
    ∀ (n : ℕ) (l : List Particle) (i : ℕ),
      (integratePool f n l)[i]? =
        (l[i]?).map (fun p => if p.life ≤ 0 then p else f (n + i) p) := by
  intro n l
  induction l generalizing n with
  | nil => intro i; simp [integratePool]
  | cons p ps ih =>
    intro i
    cases i with
    | zero => simp [integratePool]
    | succ m =>
      simp only [integratePool, List.getElem?_cons_succ, ih (n + 1) m]
      have : n + (m + 1) = n + 1 + m := by omega
      rw [this]

/-- Claim C4: inside one `update(dt)` tick, the life of a particle that was
alive at tick start never increases; a slot that is dead after the spawn
phase is untouched by the integration pass (so a life of 0 stays exactly 0
until `spawnParticle` reuses the slot); without an active fade the new life
is exactly `max 0 (life - dt/lifeSeconds)`, and a fade override can only
lower it further. -/
theorem C4_life_never_increases (env : PlumeEnv) (ur : UpdateRands) (dt : ℚ)
    (st : PlumeState) (hdt : 0 ≤ dt) (hls : 0 < st.config.lifeSeconds)
    (hpts : st.pointsCreated = true) :
    (∀ (i : ℕ) (p q : Particle), st.pool[i]? = some p →
        (update env ur dt st).pool[i]? = some q → 0 < p.life → q.life ≤ p.life)
    ∧ (∀ (i : ℕ) (p q : Particle),
        (updateSpawn env ur dt (updateDebug dt st)).pool[i]? = some p →
        (update env ur dt st).pool[i]? = some q → p.life ≤ 0 → q = p)
    ∧ (∀ (ir : IntegRands) (p : Particle), p.gate = true ∨ p.fadeDuration ≤ 0 →
        (integrateParticle env st.config dt ir p).life =
          max 0 (p.life - dt / st.config.lifeSeconds))
    ∧ (∀ (ir : IntegRands) (p : Particle),
        (integrateParticle env st.config dt ir p).life ≤
          max 0 (p.life - dt / st.config.lifeSeconds)) := by
  refine ⟨?_, ?_, ?_, ?_⟩
  · intro i p q hp hq halive
    rw [update_pool_of_points env ur dt st hpts, integratePool_getElem] at hq
    have hsp : (updateSpawn env ur dt (updateDebug dt st)).pool[i]? = some p := by
      unfold updateSpawn
      dsimp only
      apply drain_getElem_alive
      · rw [updateDebug_pool]
        exact hp
      · exact halive
    rw [hsp] at hq
    simp only [Option.map_some'] at hq
    rw [if_neg (not_le.mpr halive)] at hq
    cases hq
    unfold integrateParticle
    calc (integLife st.config dt (integMove env st.config dt (ur.integ (0 + i)) p)).life
        ≤ (integMove env st.config dt (ur.integ (0 + i)) p).life :=
          integLife_life_le st.config dt _ hdt hls (by rw [integMove_life]; exact halive.le)
      _ = p.life := integMove_life env st.config dt _ p
  · intro i p q hp hq hdead
    rw [update_pool_of_points env ur dt st hpts, integratePool_getElem, hp] at hq
    simp only [Option.map_some'] at hq
    rw [if_pos hdead] at hq
    cases hq
    rfl
  · intro ir p hcond
    unfold integrateParticle integLife
    dsimp only
    rw [if_neg, integMove_life]
    · split
      · next h => exact (max_eq_left h.le).symm
      · next h => exact (max_eq_right (not_lt.mp h)).symm
    · rintro ⟨hg, hf⟩
      rw [integMove_gate] at hg
      rw [integMove_fadeDuration] at hf
      rcases hcond with hc | hc
      · rw [hc] at hg; cases hg
      · exact absurd hf (not_lt.mpr hc)
  · intro ir p
    unfold integrateParticle
    calc (integLife st.config dt (integMove env st.config dt ir p)).life
        ≤ max 0 ((integMove env st.config dt ir p).life - dt / st.config.lifeSeconds) :=
          integLife_life_le_max st.config dt _
      _ = max 0 (p.life - dt / st.config.lifeSeconds) := by rw [integMove_life]

theorem C4_witness :
    (0 : ℚ) ≤ 1/60 ∧ 0 < defaultPlumeConfig.lifeSeconds ∧
    (addSource 0 0 1 (mkInitState defaultPlumeConfig)).pointsCreated = true ∧
    (∀ (ir : IntegRands) (p : Particle),
      (integrateParticle ⟨0.95, 0, 0⟩
          (addSource 0 0 1 (mkInitState defaultPlumeConfig)).config (1/60) ir p).life ≤
        max 0 (p.life - (1/60) /
          (addSource 0 0 1 (mkInitState defaultPlumeConfig)).config.lifeSeconds)) :=
  ⟨by norm_num, by norm_num [defaultPlumeConfig], rfl,
   (C4_life_never_increases ⟨0.95, 0, 0⟩ zeroUpdateRands (1/60)
     (addSource 0 0 1 (mkInitState defaultPlumeConfig)) (by norm_num)
     (by norm_num [addSource, mkInitState, defaultPlumeConfig]) rfl).2.2.2⟩

/-! ### Claim C7: end of the powder dropping state -/

theorem swirlPhase_dropping (dt : ℚ) (b : Batch) :
    (swirlPhase dt b).dropping = b.dropping := by
  unfold swirlPhase
  split
  · rfl
  · rfl

theorem dissolvePhase_dropping (dt : ℚ) (b : Batch) :
    (dissolvePhase dt b).dropping = b.dropping := by
  unfold dissolvePhase
  split
  · rfl
  · dsimp only
    split <;> rfl

theorem settledCount_swirlPhase (dt : ℚ) (b : Batch) :
    settledCount (swirlPhase dt b) = settledCount b := by
  unfold swirlPhase
  split
  · rfl
  · dsimp only
    unfold settledCount
    dsimp only
    rw [List.countP_map]
    exact List.countP_congr fun g _ => Iff.rfl

theorem settledCount_dissolvePhase (dt : ℚ) (b : Batch) :
    settledCount (dissolvePhase dt b) = settledCount b := by
  unfold dissolvePhase
  split
  · rfl
  · dsimp only
    split <;> rfl

theorem dropGrainStep_settled_eq_hit (b : Batch) (dt : ℚ) (g : Grain)
    (hdt : 0 ≤ dt)
    (hg : g.settled = true → b.originY + g.gy ≤ b.bottomYWorld + 0.01 ∧ g.vy ≤ 0) :
    (dropGrainStep b dt g).1.settled = (dropGrainStep b dt g).2.1 := by
  unfold dropGrainStep
  dsimp only
  cases hs : g.settled with
  | false => simp
  | true =>
    obtain ⟨hy, hvy⟩ := hg hs
    have hdtR : (0 : ℝ) ≤ (dt : ℝ) := by exact_mod_cast hdt
    have hvy2 : (if (match b.waterSurfaceY with
        | some s => decide (b.originY + g.gy ≤ s - 0.001)
        | none => false) = true
        then (g.vy - 6 * (dt : ℝ) + 6 * 0.45 * (dt : ℝ)) * 0.93
        else g.vy - 6 * (dt : ℝ)) ≤ 0 := by
      split
      · nlinarith
      · nlinarith
    have hhit : b.originY + (g.gy +
        (if (match b.waterSurfaceY with
          | some s => decide (b.originY + g.gy ≤ s - 0.001)
          | none => false) = true
          then (g.vy - 6 * (dt : ℝ) + 6 * 0.45 * (dt : ℝ)) * 0.93
          else g.vy - 6 * (dt : ℝ)) * (dt : ℝ)) ≤ b.bottomYWorld + 0.01 := by
      have hmul : (if (match b.waterSurfaceY with
          | some s => decide (b.originY + g.gy ≤ s - 0.001)
          | none => false) = true
          then (g.vy - 6 * (dt : ℝ) + 6 * 0.45 * (dt : ℝ)) * 0.93
          else g.vy - 6 * (dt : ℝ)) * (dt : ℝ) ≤ 0 :=
        mul_nonpos_iff.mpr (Or.inr ⟨hvy2, hdtR⟩)
      linarith
    rw [decide_eq_true hhit]
    simp

theorem C7_settled_hits (b : Batch) (dt : ℚ) (hdt : 0 ≤ dt)
    (hinv : ∀ g ∈ b.grains, g.settled = true →
      b.originY + g.gy ≤ b.bottomYWorld + 0.01 ∧ g.vy ≤ 0) :
    (b.grains.map (dropGrainStep b dt)).countP (fun t => t.1.settled) =
      (b.grains.map (dropGrainStep b dt)).countP (fun t => t.2.1) := by
  rw [List.countP_map, List.countP_map]
  refine List.countP_congr fun g hgmem => ?_
  have heq := dropGrainStep_settled_eq_hit b dt g hdt (hinv g hgmem)
  simp only [Function.comp_apply, heq]

/-- Claim C7: for a dropping powder batch, one `update(dt)` tick ends the
dropping state exactly when at least 60% of the batch's grains are settled
on the bottom after this tick, or the accumulated drop time has reached 8
seconds — whichever occurs first; before both conditions the batch remains
dropping.  (Every settled grain sits clamped at the bottom with zero
vertical velocity, which is the stated invariant hypothesis, and is
re-counted as a bottom hit on the current tick.) -/
theorem C7_dropping_end_condition (dt : ℚ) (b : Batch)
    (hdrop : b.dropping = true) (hdead : b.dead = false) (hdt : 0 ≤ dt)
    (hne : b.grains ≠ [])
    (hinv : ∀ g ∈ b.grains, g.settled = true →
      b.originY + g.gy ≤ b.bottomYWorld + 0.01 ∧ g.vy ≤ 0) :
    ((batchTick dt b).dropping = false ↔
      ((3/5 : ℝ) * b.grains.length ≤ (settledCount (batchTick dt b) : ℝ)
        ∨ 8 ≤ b.dropElapsed + dt)) := by
  have hlen : (0 : ℝ) < (b.grains.length : ℝ) := by
    have := List.length_pos.mpr hne
    exact_mod_cast this
  unfold batchTick
  rw [if_neg (by rw [hdead]; simp), if_neg (by rw [hdrop]; simp)]
  rw [dissolvePhase_dropping, swirlPhase_dropping]
  have hsc : settledCount (dissolvePhase dt (swirlPhase dt (dropPhase dt b))) =
      settledCount (dropPhase dt b) := by
    rw [settledCount_dissolvePhase, settledCount_swirlPhase]
  rw [hsc]
  unfold dropPhase
  rw [if_neg (by rw [hdrop]; simp)]
  dsimp only
  have hsc2 : settledCount { b with
      grains := (b.grains.map (dropGrainStep b dt)).map (fun t => t.1),
      enterNotified := b.enterNotified || (b.grains.map (dropGrainStep b dt)).any (fun t => t.2.2),
      dropElapsed := b.dropElapsed + dt,
      dropping := !(decide ((0.6 : ℝ) ≤
          ((b.grains.map (dropGrainStep b dt)).countP (fun t => t.2.1) : ℝ) /
            (b.grains.length : ℝ)) || decide ((8 : ℚ) ≤ b.dropElapsed + dt)) } =
      (b.grains.map (dropGrainStep b dt)).countP (fun t => t.2.1) := by
    unfold settledCount
    dsimp only
    rw [List.countP_map]
    exact C7_settled_hits b dt hdt hinv
  rw [hsc2]
  rw [Bool.not_eq_false', Bool.or_eq_true, decide_eq_true_iff, decide_eq_true_iff]
  constructor
  · rintro (hfrac | helapsed)
    · left
      rw [le_div_iff₀ hlen] at hfrac
      calc (3/5 : ℝ) * (b.grains.length : ℝ)
          = 0.6 * (b.grains.length : ℝ) := by norm_num
        _ ≤ _ := hfrac
    · right
      exact helapsed
  · rintro (hfrac | helapsed)
    · left
      rw [le_div_iff₀ hlen]
      calc (0.6 : ℝ) * (b.grains.length : ℝ)
          = (3/5 : ℝ) * (b.grains.length : ℝ) := by norm_num
        _ ≤ _ := hfrac
    · right
      exact helapsed

/-- A concrete one-grain dropping batch used to instantiate the witness. -/
noncomputable def c7Batch : Batch :=
  { originX := 0, originY := 0, originZ := 0, visible := true, opacity := 1,
    grains := [⟨0, 0, 0, 0, 0, 0, false⟩], dropping := true, dropElapsed := 0,
    bottomYWorld := -1, centerX := 0, centerZ := 0, beakerRadius := 0.95,
    swirling := false, swirlElapsed := 0, swirlDuration := 0,
    swirlCenterX := 0, swirlCenterZ := 0, swirlStrength := 0, swirlInward := 0,
    swirlDrag := 1.2, swirlDir := 1, dissolveActive := false,
    dissolveElapsed := 0, dissolveDurationSec := 0, dead := false,
    waterSurfaceY := none, enterNotified := false, hasTransform := false,
    toLocal := fun _ => (0, 0) }

theorem C7_witness :
    c7Batch.dropping = true ∧ c7Batch.dead = false ∧ (0 : ℚ) ≤ 1/60 ∧
    c7Batch.grains ≠ [] ∧
    ((batchTick (1/60) c7Batch).dropping = false ↔
      ((3/5 : ℝ) * c7Batch.grains.length ≤ (settledCount (batchTick (1/60) c7Batch) : ℝ)
        ∨ 8 ≤ c7Batch.dropElapsed + 1/60)) :=
  ⟨rfl, rfl, by norm_num, by simp [c7Batch],
   C7_dropping_end_condition (1/60) c7Batch rfl rfl (by norm_num)
     (by simp [c7Batch]) (by simp [c7Batch])⟩

/-! ### Claim C5: fadeOutBottomPlumes -/

theorem fadeOut_points (d : ℚ) (st : PlumeState) :
    (fadeOutBottomPlumes d st).pointsCreated = st.pointsCreated := by
  unfold fadeOutBottomPlumes
  split <;> rfl

theorem fadeOut_config (d : ℚ) (st : PlumeState) :
    (fadeOutBottomPlumes d st).config = st.config := by
  unfold fadeOutBottomPlumes
  split <;> rfl

theorem fadeOut_getElem_gated (d : ℚ) (st : PlumeState) (i : ℕ) (p : Particle)
    (hp : st.pool[i]? = some p) (hg : p.gate = true) :
    (fadeOutBottomPlumes d st).pool[i]? = some p := by
  unfold fadeOutBottomPlumes
  split
  · exact hp
  · dsimp only
    rw [List.getElem?_map, hp]
    simp only [Option.map_some']
    rw [if_neg]
    rintro ⟨_, hgf⟩
    rw [hg] at hgf
    cases hgf

theorem fadeOut_getElem_bottom (d : ℚ) (st : PlumeState) (i : ℕ) (p : Particle)
    (hpts : st.pointsCreated = true) (hp : st.pool[i]? = some p)
    (halive : 0 < p.life) (hg : p.gate = false) :
    (fadeOutBottomPlumes d st).pool[i]? =
      some { p with fadeDuration := d, fadeTimer := 0 } := by
  unfold fadeOutBottomPlumes
  rw [if_neg (by rw [hpts]; simp)]
  dsimp only
  rw [List.getElem?_map, hp]
  simp only [Option.map_some']
  rw [if_pos ⟨halive, hg⟩]

/-- The life-relevant components of a particle slot: `life`, `gate`,
`fadeTimer`, `fadeDuration`.  The life evolution inside `update` reads and
writes only these (never positions, velocities or random draws). -/
def lifeComp (p : Particle) : ℚ × Bool × ℚ × ℚ :=
  (p.life, p.gate, p.fadeTimer, p.fadeDuration)

theorem lifeComp_integMove (env : PlumeEnv) (cfg : PlumeConfig) (dt : ℚ)
    (ir : IntegRands) (p : Particle) :
    lifeComp (integMove env cfg dt ir p) = lifeComp p := rfl

theorem integLife_comp_congr (cfg : PlumeConfig) (dt : ℚ) (p1 p2 : Particle)
    (h : lifeComp p1 = lifeComp p2) :
    lifeComp (integLife cfg dt p1) = lifeComp (integLife cfg dt p2) := by
  have hl : p1.life = p2.life := congrArg (fun t => t.1) h
  have hg : p1.gate = p2.gate := congrArg (fun t => t.2.1) h
  have hft : p1.fadeTimer = p2.fadeTimer := congrArg (fun t => t.2.2.1) h
  have hfd : p1.fadeDuration = p2.fadeDuration := congrArg (fun t => t.2.2.2) h
  unfold integLife lifeComp
  dsimp only
  rw [hl, hg, hft, hfd]
  by_cases h1 : p2.gate = false ∧ 0 < p2.fadeDuration
  · by_cases h2 : (1 : ℚ) ≤ min 1 ((p2.fadeTimer + dt) / p2.fadeDuration)
    · simp only [if_pos h1, if_pos h2]
    · simp only [if_pos h1, if_neg h2]
  · simp only [if_neg h1]

theorem integLife_gate (cfg : PlumeConfig) (dt : ℚ) (p : Particle) :
    (integLife cfg dt p).gate = p.gate := by
  unfold integLife
  dsimp only
  split
  · split <;> rfl
  · rfl

theorem integrateParticle_gate (env : PlumeEnv) (cfg : PlumeConfig) (dt : ℚ)
    (ir : IntegRands) (p : Particle) :
    (integrateParticle env cfg dt ir p).gate = p.gate := by
  unfold integrateParticle
  rw [integLife_gate, integMove_gate]

theorem integLife_life_nonneg (cfg : PlumeConfig) (dt : ℚ) (p : Particle) :
    0 ≤ (integLife cfg dt p).life := by
  unfold integLife
  dsimp only
  set l2 := if p.life - dt / cfg.lifeSeconds < 0 then 0
    else p.life - dt / cfg.lifeSeconds with hl2def
  have h2 : 0 ≤ l2 := by
    rw [hl2def]
    split
    · exact le_refl 0
    · next hnl => exact not_lt.mp hnl
  by_cases hcond : p.gate = false ∧ 0 < p.fadeDuration
  · rw [if_pos hcond]
    by_cases hk : (1 : ℚ) ≤ min 1 ((p.fadeTimer + dt) / p.fadeDuration)
    · rw [if_pos hk]
    · rw [if_neg hk]
      dsimp only
      have hk1 : min 1 ((p.fadeTimer + dt) / p.fadeDuration) ≤ 1 := min_le_left _ _
      split
      · linarith
      · exact h2
  · rw [if_neg hcond]
    exact h2

theorem integrateParticle_life_nonneg (env : PlumeEnv) (cfg : PlumeConfig)
    (dt : ℚ) (ir : IntegRands) (p : Particle) :
    0 ≤ (integrateParticle env cfg dt ir p).life := by
  unfold integrateParticle
  exact integLife_life_nonneg cfg dt _

theorem integrateParticle_fade (env : PlumeEnv) (cfg : PlumeConfig) (dt : ℚ)
    (ir : IntegRands) (p : Particle) (hg : p.gate = false) (hfd : 0 < p.fadeDuration) :
    (integrateParticle env cfg dt ir p).fadeTimer = p.fadeTimer + dt
    ∧ ((1 : ℚ) ≤ min 1 ((p.fadeTimer + dt) / p.fadeDuration) →
        (integrateParticle env cfg dt ir p).life = 0)
    ∧ (¬(1 : ℚ) ≤ min 1 ((p.fadeTimer + dt) / p.fadeDuration) →
        (integrateParticle env cfg dt ir p).fadeDuration = p.fadeDuration) := by
  unfold integrateParticle integLife
  dsimp only
  rw [integMove_gate, integMove_fadeTimer, integMove_fadeDuration]
  rw [if_pos ⟨hg, hfd⟩]
  by_cases hk : (1 : ℚ) ≤ min 1 ((p.fadeTimer + dt) / p.fadeDuration)
  · rw [if_pos hk]
    exact ⟨rfl, fun _ => rfl, fun hc => absurd hk hc⟩
  · rw [if_neg hk]
    exact ⟨rfl, fun hc => absurd hc hk, fun _ => rfl⟩

theorem update_getElem_alive (env : PlumeEnv) (ur : UpdateRands) (dt : ℚ)
    (st : PlumeState) (i : ℕ) (p : Particle)
    (hpts : st.pointsCreated = true) (hp : st.pool[i]? = some p)
    (halive : 0 < p.life) :
    (update env ur dt st).pool[i]? =
      some (integrateParticle env st.config dt (ur.integ i) p) := by
  rw [update_pool_of_points env ur dt st hpts, integratePool_getElem]
  have hsp : (updateSpawn env ur dt (updateDebug dt st)).pool[i]? = some p := by
    unfold updateSpawn
    dsimp only
    apply drain_getElem_alive
    · rw [updateDebug_pool]
      exact hp
    · exact halive
  rw [hsp]
  simp only [Option.map_some']
  rw [if_neg (not_le.mpr halive), Nat.zero_add]

theorem fade_reaches_zero (env : PlumeEnv) (d : ℚ) (hd : 0 < d) :
    ∀ (ticks : List (ℚ × UpdateRands)) (st : PlumeState) (i : ℕ) (p : Particle),
      st.pointsCreated = true → st.pool[i]? = some p →
      p.gate = false → p.fadeDuration = d → p.fadeTimer < d →
      d ≤ p.fadeTimer + (ticks.map (fun t => t.1)).sum → 0 < p.life →
      ∃ n ≤ ticks.length, ∃ q : Particle,
        (runTicks env (ticks.take n) st).pool[i]? = some q ∧ q.life = 0 := by
  intro ticks
  induction ticks with
  | nil =>
    intro st i p _ _ _ _ hlt hsum _
    rw [List.map_nil, List.sum_nil, add_zero] at hsum
    exact absurd hsum (not_le.mpr hlt)
  | cons t rest ih =>
    obtain ⟨dt, ur⟩ := t
    intro st i p hpts hp hg hfd hlt hsum halive
    have hfd0 : 0 < p.fadeDuration := by rw [hfd]; exact hd
    have hq := update_getElem_alive env ur dt st i p hpts hp halive
    obtain ⟨hft, hkill, hkeep⟩ :=
      integrateParticle_fade env st.config dt (ur.integ i) p hg hfd0
    set q := integrateParticle env st.config dt (ur.integ i) p with hqdef
    rw [List.map_cons, List.sum_cons] at hsum
    by_cases hk : (1 : ℚ) ≤ min 1 ((p.fadeTimer + dt) / p.fadeDuration)
    · refine ⟨1, Nat.succ_le_succ (Nat.zero_le _), q, ?_, hkill hk⟩
      rw [List.take_succ_cons, List.take_zero]
      exact hq
    · by_cases hql : q.life = 0
      · refine ⟨1, Nat.succ_le_succ (Nat.zero_le _), q, ?_, hql⟩
        rw [List.take_succ_cons, List.take_zero]
        exact hq
      · have hq0 : 0 ≤ q.life := by
          rw [hqdef]
          exact integrateParticle_life_nonneg env st.config dt (ur.integ i) p
        have hqalive : 0 < q.life := lt_of_le_of_ne hq0 (Ne.symm hql)
        have hkd : min 1 ((p.fadeTimer + dt) / p.fadeDuration) < 1 := not_le.mp hk
        have hftlt : p.fadeTimer + dt < d := by
          rcases min_lt_iff.mp hkd with h1 | h2
          · exact absurd h1 (lt_irrefl 1)
          · rw [hfd] at h2
            exact (div_lt_one hd).mp h2
        obtain ⟨n, hn, q2, hq2, hq2l⟩ := ih (update env ur dt st) i q
          (update_points env ur dt st hpts) hq
          (by rw [hqdef, integrateParticle_gate]; exact hg)
          (by rw [hkeep hk]; exact hfd)
          (by rw [hft]; exact hftlt)
          (by rw [hft]; linarith)
          hqalive
        refine ⟨n + 1, Nat.succ_le_succ hn, q2, ?_, hq2l⟩
        rw [List.take_succ_cons]
        exact hq2

theorem gated_coupled (env : PlumeEnv) :
    ∀ (ticks : List (ℚ × UpdateRands)) (stA stB : PlumeState) (i : ℕ)
      (pA pB : Particle),
      stA.pointsCreated = true → stB.pointsCreated = true →
      stA.config = stB.config →
      stA.pool[i]? = some pA → stB.pool[i]? = some pB →
      lifeComp pA = lifeComp pB →
      (∀ m, m < ticks.length → ∀ q : Particle,
        (runTicks env (ticks.take m) stB).pool[i]? = some q → 0 < q.life) →
      ∃ qA qB : Particle, (runTicks env ticks stA).pool[i]? = some qA ∧
        (runTicks env ticks stB).pool[i]? = some qB ∧ lifeComp qA = lifeComp qB := by
  intro ticks
  induction ticks with
  | nil =>
    intro stA stB i pA pB _ _ _ hpA hpB hcomp _
    exact ⟨pA, pB, hpA, hpB, hcomp⟩
  | cons t rest ih =>
    obtain ⟨dt, ur⟩ := t
    intro stA stB i pA pB hptsA hptsB hcfg hpA hpB hcomp halive
    have halB : 0 < pB.life :=
      halive 0 (Nat.succ_le_succ (Nat.zero_le _)) pB
        (by rw [List.take_zero]; exact hpB)
    have halA : 0 < pA.life := by
      have hlAB : pA.life = pB.life := congrArg (fun t => t.1) hcomp
      rw [hlAB]
      exact halB
    have hqA := update_getElem_alive env ur dt stA i pA hptsA hpA halA
    have hqB := update_getElem_alive env ur dt stB i pB hptsB hpB halB
    have hcomp2 : lifeComp (integrateParticle env stA.config dt (ur.integ i) pA) =
        lifeComp (integrateParticle env stB.config dt (ur.integ i) pB) := by
      rw [hcfg]
      unfold integrateParticle
      apply integLife_comp_congr
      rw [lifeComp_integMove, lifeComp_integMove]
      exact hcomp
    obtain ⟨qA, qB, h1, h2, h3⟩ := ih (update env ur dt stA) (update env ur dt stB)
      i _ _
      (update_points env ur dt stA hptsA) (update_points env ur dt stB hptsB)
      (by rw [update_config, update_config, hcfg])
      hqA hqB hcomp2
      (fun m hm q hq => halive (m + 1) (Nat.succ_lt_succ hm) q
        (by rw [List.take_succ_cons]; exact hq))
    exact ⟨qA, qB, h1, h2, h3⟩

/-- Claim C5: `fadeOutBottomPlumes(d)` followed by `update(dt)` ticks whose
durations sum to at least `d` brings every ungated (`gate = 0`) particle
that was alive at the call to life exactly 0 within those ticks (at some
tick index `n`, its slot holds life 0 — possibly earlier if natural aging
kills it first), while every gated (`gate = 1`) particle is untouched by
the call and, for as long as it stays alive, its life/gate/fade trajectory
is identical with and without the `fadeOutBottomPlumes` call. -/
theorem C5_fade_out_bottom (env : PlumeEnv) (st : PlumeState) (d : ℚ)
    (ticks : List (ℚ × UpdateRands)) (hpts : st.pointsCreated = true)
    (hd : 0 < d) (hsum : d ≤ (ticks.map (fun t => t.1)).sum) :
    (∀ (i : ℕ) (p : Particle), st.pool[i]? = some p → p.gate = false →
      0 < p.life →
      ∃ n ≤ ticks.length, ∃ q : Particle,
        (runTicks env (ticks.take n) (fadeOutBottomPlumes d st)).pool[i]? = some q ∧
          q.life = 0)
    ∧ (∀ (i : ℕ) (p : Particle), st.pool[i]? = some p → p.gate = true →
        ∀ n : ℕ,
        (∀ m, m < n → ∀ q : Particle,
          (runTicks env (ticks.take m) st).pool[i]? = some q → 0 < q.life) →
        ∃ qA qB : Particle,
          (runTicks env (ticks.take n) (fadeOutBottomPlumes d st)).pool[i]? = some qA ∧
          (runTicks env (ticks.take n) st).pool[i]? = some qB ∧
          lifeComp qA = lifeComp qB) := by
  constructor
  · intro i p hp hg halive
    have hfp := fadeOut_getElem_bottom d st i p hpts hp halive hg
    exact fade_reaches_zero env d hd ticks (fadeOutBottomPlumes d st) i
      { p with fadeDuration := d, fadeTimer := 0 }
      (by rw [fadeOut_points]; exact hpts) hfp hg rfl hd
      (by simpa using hsum) halive
  · intro i p hp hg n halive
    apply gated_coupled env (ticks.take n) (fadeOutBottomPlumes d st) st i p p
      (by rw [fadeOut_points]; exact hpts) hpts (fadeOut_config d st)
      (fadeOut_getElem_gated d st i p hp hg) hp rfl
    intro m hm q hq
    rw [List.length_take] at hm
    have hmn : m < n := lt_of_lt_of_le hm (min_le_left _ _)
    apply halive m hmn q
    rw [List.take_take, min_eq_left hmn.le] at hq
    exact hq

theorem C5_witness :
    (addSource 0 0 1 (mkInitState defaultPlumeConfig)).pointsCreated = true ∧
    (0 : ℚ) < 1 ∧
    (1 : ℚ) ≤ (([((1 : ℚ), zeroUpdateRands)].map (fun t => t.1)).sum) ∧
    (∀ (i : ℕ) (p : Particle),
      (addSource 0 0 1 (mkInitState defaultPlumeConfig)).pool[i]? = some p →
      p.gate = false → 0 < p.life →
      ∃ n ≤ ([((1 : ℚ), zeroUpdateRands)] : List (ℚ × UpdateRands)).length,
        ∃ q : Particle,
          (runTicks ⟨0.95, 0, 0⟩ ([((1 : ℚ), zeroUpdateRands)].take n)
            (fadeOutBottomPlumes 1
              (addSource 0 0 1 (mkInitState defaultPlumeConfig)))).pool[i]? = some q ∧
          q.life = 0) :=
  ⟨rfl, by norm_num, by norm_num,
   (C5_fade_out_bottom ⟨0.95, 0, 0⟩ (addSource 0 0 1 (mkInitState defaultPlumeConfig))
     1 [((1 : ℚ), zeroUpdateRands)] rfl (by norm_num) (by norm_num)).1⟩

end Oksidit
